import Mathlib

/-!
# Learning-Cpp: a shallow embedding of the teaching programs

The repository is a set of stand-alone C++ teaching programs (plus one C
translation unit).  Each program is a `main` that calls a handful of
demonstration functions; what a program does is print text, create and destroy
a few toy objects, and compute a few small values.

The embedding has four layers.

* `Machine`   : the arithmetic of the target (32-bit `int`, binary64 `double`),
  the formatting rules of `std::ostream` and the sizes of the toy types.
* `World`     : the program state, passed explicitly: what has been written to
  standard output, which objects are alive, which heap blocks are allocated.
  A program does not choose the addresses of its objects, so what it writes is
  kept as text with places for the pointers it prints; a `Layout` gives the
  addresses of one run and turns that into the characters of that run.
* `Overload`  : the two pieces of C++ overload resolution the programs are
  about: operator calls (`a + b` against `a.operator+(b)`) and constructor
  selection for `T x{...}` against `T x(...)`.
* one namespace per source file, with one definition per C++ function, in the
  order of the source.
-/

namespace LearningCpp

/-! ## Machine integers -/

/-- The smallest value of a 32-bit `int`. -/
def INT_MIN : Int := -2147483648

/-- The largest value of a 32-bit `int`. -/
def INT_MAX : Int := 2147483647

/-- Two's-complement wrap-around of a mathematical integer into 32 bits: what
the `add` and `inc` instructions of the target leave in a register. -/
def wrapInt (n : Int) : Int := (n + 2147483648) % 4294967296 - 2147483648

/-- An integer that fits a 32-bit `int`. -/
def isInt (n : Int) : Prop := INT_MIN ≤ n ∧ n ≤ INT_MAX

instance (n : Int) : Decidable (isInt n) := by unfold isInt; infer_instance

/-! ## Binary64 floating point

The values of an IEEE 754 binary64 `double`: the finite values
`(-1) ^ sign * m * 2 ^ e` with `m < 2 ^ 53` and `-1074 ≤ e`, below `2 ^ 1024` in
magnitude (both zeros and the subnormal numbers among them), the two infinities
and NaN (one value stands for every NaN: neither its sign nor its payload is
kept). Finite values are kept in normal form (`m` odd, or `m = 0` and `e = 0`),
so that equal values have equal representations. Every operation returns the
exact result rounded to nearest, ties to even, as the default rounding mode
does; expressions are evaluated in the precision of `double`
(`FLT_EVAL_METHOD` is `0`, as on x86-64). -/

/-- A binary64 value. -/
inductive Double
  | finite (negative : Bool) (m : Nat) (e : Int)
  | infinite (negative : Bool)
  | nan
deriving DecidableEq, Repr

namespace Double

/-- Number of binary digits of `n` (`0` has one digit). -/
def bitLength (n : Nat) : Nat := (Nat.toDigits 2 n).length

/-- Number of decimal digits of `n` (`0` has one digit). -/
def decLength (n : Nat) : Nat := (Nat.toDigits 10 n).length

/-- The largest `t` with `2 ^ t` dividing `n`, for `n > 0`. -/
def trailingZeros (n : Nat) : Nat := bitLength (Nat.gcd n (2 ^ bitLength n)) - 1

/-- The exponent of the smallest subnormal number, `2 ^ (-1074)`. -/
def minExponent : Int := -1074

/-- Normal form of the finite value `(-1) ^ negative * m * 2 ^ e`. -/
def normalize (negative : Bool) (m : Nat) (e : Int) : Double :=
  if m = 0 then .finite negative 0 0
  else
    let t := trailingZeros m
    .finite negative (m / 2 ^ t) (e + t)

/-- Round the positive rational `p / q` to nearest, ties to even, to a 53-bit
significand, or to a multiple of `2 ^ (-1074)` when it is too small for 53
bits. The result is `(n, k)` for the value `n * 2 ^ k`. -/
def roundPos (p q : Nat) : Nat × Int :=
  let k0 : Int := (bitLength p : Int) - (bitLength q : Int) - 53
  let scaled (k : Int) : Nat × Nat :=
    if 0 ≤ k then (p, q * 2 ^ k.toNat) else (p * 2 ^ (-k).toNat, q)
  let k1 : Int := if (scaled k0).1 / (scaled k0).2 < 2 ^ 53 then k0 else k0 + 1
  let k : Int := max k1 minExponent
  let num := (scaled k).1
  let den := (scaled k).2
  let n := num / den
  let r := num % den
  if 2 * r > den ∨ (2 * r = den ∧ n % 2 = 1) then (n + 1, k) else (n, k)

/-- The `double` nearest to `(-1) ^ negative * p / q` (`q > 0`): zero with the
given sign when the magnitude rounds to zero, an infinity when the rounded
magnitude reaches `2 ^ 1024`. -/
def ofSignedRatio (negative : Bool) (p q : Nat) : Double :=
  if p = 0 then .finite negative 0 0
  else
    let r := roundPos p q
    if r.1 = 0 then .finite negative 0 0
    else if 1025 ≤ (bitLength r.1 : Int) + r.2 then .infinite negative
    else normalize negative r.1 r.2

/-- The `double` nearest to the rational `num / den` (`den > 0`). -/
def ofRatio (num : Int) (den : Nat) : Double := ofSignedRatio (decide (num < 0)) num.natAbs den

/-- The `double` nearest to a dyadic `m * 2 ^ e`. -/
def ofDyadic (m e : Int) : Double :=
  if 0 ≤ e then ofRatio (m * 2 ^ e.toNat) 1 else ofRatio m (2 ^ (-e).toNat)

/-- Conversion `int -> double` (exact for every 32-bit value). -/
def ofInt (n : Int) : Double := ofRatio n 1

/-- The value of a decimal literal `digits * 10 ^ (-scale)`, e.g. `3.14` is
`ofDecimal 314 2`. -/
def ofDecimal (digits : Int) (scale : Nat) : Double := ofRatio digits (10 ^ scale)

/-- The literal `0.0`. -/
def zero : Double := .finite false 0 0

/-- The integer `(-1) ^ negative * m`. -/
def signed (negative : Bool) (m : Nat) : Int := if negative then -(m : Int) else (m : Int)

/-- Floating-point `x + y`. NaN when an operand is NaN or the operands are
infinities of opposite sign; an infinity when one operand is; otherwise the
exact sum, rounded. An exact sum of zero is `+0.0`, unless both operands are
negative (both are then `-0.0`). -/
def add : Double → Double → Double
  | .nan, _ => .nan
  | _, .nan => .nan
  | .infinite a, .infinite b => if a = b then .infinite a else .nan
  | .infinite a, .finite _ _ _ => .infinite a
  | .finite _ _ _, .infinite b => .infinite b
  | .finite na ma ea, .finite nb mb eb =>
    let e := min ea eb
    let s : Int := signed na ma * 2 ^ (ea - e).toNat + signed nb mb * 2 ^ (eb - e).toNat
    if s = 0 then .finite (na && nb) 0 0 else ofDyadic s e

/-- Floating-point `x / y`. NaN when an operand is NaN and for `0 / 0` and
`inf / inf`; an infinity for a non-zero or infinite `x` over zero and for an
infinite `x` over a finite `y`; zero for a finite `x` over an infinite `y`;
otherwise the exact quotient, rounded. The sign is negative when exactly one
operand is negative. -/
def div : Double → Double → Double
  | .nan, _ => .nan
  | _, .nan => .nan
  | .infinite _, .infinite _ => .nan
  | .infinite a, .finite nb _ _ => .infinite (a != nb)
  | .finite na _ _, .infinite b => .finite (na != b) 0 0
  | .finite na ma ea, .finite nb mb eb =>
    if mb = 0 then (if ma = 0 then .nan else .infinite (na != nb))
    else
      let e := ea - eb
      if 0 ≤ e then ofSignedRatio (na != nb) (ma * 2 ^ e.toNat) mb
      else ofSignedRatio (na != nb) ma (mb * 2 ^ (-e).toNat)

/-- Conversion `double -> int`: truncation toward zero. (Undefined in C++ for
NaN, the infinities and values outside `int`; `0` is returned for the first two
and the truncated value for the last.) -/
def toInt : Double → Int
  | .finite negative m e =>
    signed negative (if 0 ≤ e then m * 2 ^ e.toNat else m / 2 ^ (-e).toNat)
  | _ => 0

/-- The rational number a finite `double` stands for; both zeros stand for `0`. -/
def toRat : Double → Option ℚ
  | .finite negative m e => some ((signed negative m : ℚ) * (2 : ℚ) ^ e)
  | _ => none

end Double

/-! ## Formatting by `std::ostream`

The default formatting of `operator<<`: integers in decimal, pointers as `0x`
followed by lower-case hexadecimal digits (the `num_put` facet with `showbase`,
as libstdc++ and libc++ do), and `double` in the general format with six
significant digits, i.e. `printf("%g")`. -/

/-- Formatting of an `int`, `long` or `long long`. -/
def showInt (n : Int) : String := toString n

/-- Formatting of a `size_t` (the type of `sizeof` and of `list.size()`). -/
def showSize (n : Nat) : String := toString n

/-- Formatting of a non-null `const void*`. -/
def showPtr (addr : Nat) : String := "0x" ++ String.mk (Nat.toDigits 16 addr)

/-- Remove the trailing `0` digits of a digit list. -/
def stripZeros (ds : List Char) : List Char :=
  (ds.reverse.dropWhile (fun c => c == '0')).reverse

/-- The decimal exponent `X` with `10 ^ X ≤ p / q < 10 ^ (X + 1)`, for positive
`p` and `q`. -/
def decimalExponent (p q : Nat) : Int :=
  let x0 : Int := (Double.decLength p : Int) - (Double.decLength q : Int)
  let ge : Bool := if 0 ≤ x0 then decide (10 ^ x0.toNat * q ≤ p) else decide (q ≤ p * 10 ^ (-x0).toNat)
  if ge then x0 else x0 - 1

/-- The six significant decimal digits of `p / q` (rounded to nearest, ties to
even) together with the decimal exponent of the rounded value. -/
def sixDigits (p q : Nat) : Nat × Int :=
  let x := decimalExponent p q
  let s : Int := 5 - x
  let num := if 0 ≤ s then p * 10 ^ s.toNat else p
  let den := if 0 ≤ s then q else q * 10 ^ (-s).toNat
  let n := num / den
  let r := num % den
  let n1 := if 2 * r > den ∨ (2 * r = den ∧ n % 2 = 1) then n + 1 else n
  if n1 = 1000000 then (100000, x + 1) else (n1, x)

/-- Formatting of a `double` by `operator<<` with the default flags (`%g`,
precision 6): `inf` and `-inf` for the infinities, `nan` for a NaN (a NaN with
its sign bit set is written `-nan` by the library; the sign of a NaN is not
kept here, and no program prints one). -/
def showDouble : Double → String
  | .nan => "nan"
  | .infinite negative => if negative then "-inf" else "inf"
  | .finite negative m e =>
    let sign := if negative then "-" else ""
    if m = 0 then sign ++ "0"
    else
      let p := if 0 ≤ e then m * 2 ^ e.toNat else m
      let q := if 0 ≤ e then 1 else 2 ^ (-e).toNat
      let nx := sixDigits p q
      let ds := Nat.toDigits 10 nx.1
      let x := nx.2
      let body : List Char :=
        if x < -4 ∨ 6 ≤ x then
          let frac := stripZeros (ds.drop 1)
          let ex := Nat.toDigits 10 x.natAbs
          ds.take 1 ++ (if frac.isEmpty then [] else '.' :: frac)
            ++ ['e', if x < 0 then '-' else '+'] ++ (if ex.length < 2 then '0' :: ex else ex)
        else if 0 ≤ x then
          let frac := stripZeros (ds.drop (x.toNat + 1))
          ds.take (x.toNat + 1) ++ (if frac.isEmpty then [] else '.' :: frac)
        else
          '0' :: '.' :: (List.replicate ((-x).toNat - 1) '0' ++ stripZeros ds)
      sign ++ String.mk body

/-! ## Object sizes

`sizeof` on the LP64 targets the sources name (x86_64 and ARM64): a member is
placed at the next multiple of its alignment and the size of a class is rounded
up to its largest alignment. -/

/-- Size and alignment of a member. -/
structure Member where
  size : Nat
  align : Nat
deriving DecidableEq, Repr

/-- An `int` member. -/
def Member.int : Member := ⟨4, 4⟩

/-- A `double` member. -/
def Member.double : Member := ⟨8, 8⟩

/-- A pointer member (also the hidden vtable pointer of a polymorphic class). -/
def Member.pointer : Member := ⟨8, 8⟩

/-- Round `n` up to a multiple of `a`. -/
def alignUp (n a : Nat) : Nat := (n + a - 1) / a * a

/-- Offset of the member that follows `members`, when it has alignment `a`. -/
def offsetAfter (members : List Member) (a : Nat) : Nat :=
  alignUp (members.foldl (fun off m => alignUp off m.align + m.size) 0) a

/-- Alignment of a class: the largest alignment of its members. -/
def classAlign (members : List Member) : Nat := members.foldl (fun a m => max a m.align) 1

/-- The value of `sizeof` for a class with the given members. -/
def sizeofClass (members : List Member) : Nat := offsetAfter members (classAlign members)

/-- A class used as a member of another class. -/
def Member.ofClass (members : List Member) : Member := ⟨sizeofClass members, classAlign members⟩

/-! ## The program state -/

/-- What can go wrong while a program runs. `illFormed` stands for a call that
would not have compiled and `outOfFuel` for a loop that was given too few steps
by the caller of the model; neither is an event of a real run. -/
inductive RuntimeError
  | divisionByZero
  | outOfBounds
  | notAlive
  | badArrayLength
  | illFormed
  | outOfFuel
deriving DecidableEq, Repr

/-- Storage duration of an object. -/
inductive Storage
  | automatic
  | static
  | dynamic
  | temporary
deriving DecidableEq, Repr

/-- A complete object of class type (or an array of such objects), named by the
function that declares it and its variable. -/
structure Obj where
  name : String
  type : String
  storage : Storage
deriving DecidableEq, Repr

/-- A heap block made by `new double[n]`, named by the object that owns it;
a cell holds `none` until it is assigned. -/
structure Block where
  owner : String
  cells : List (Option Double)
deriving DecidableEq, Repr

/-- An address: an object, heap block or string literal (by the name under
which the layout knows it) and an offset in bytes. -/
structure Address where
  object : String
  offset : Nat
deriving DecidableEq, Repr

/-- A piece of a line of output: characters that are the same in every run, a
pointer (written in hexadecimal), or the distance in bytes between two pointers
(written in decimal). -/
inductive Chunk
  | text (s : String)
  | pointer (a : Address)
  | distance (a b : Address)
deriving DecidableEq, Repr

/-- Add a piece to the end of a line; characters that follow characters are
joined to them. -/
def pushChunk (line : List Chunk) (c : Chunk) : List Chunk :=
  match line.getLast?, c with
  | some (.text t), .text s => line.dropLast ++ [.text (t ++ s)]
  | _, _ => line ++ [c]

/-- The state of a running program. `lines` are the finished lines of standard
output and `line` the line being written; `live` are the objects whose lifetime
has begun and not ended, `made` every object constructed so far, `heap` the
allocated blocks. -/
structure World where
  lines : List (List Chunk)
  line : List Chunk
  live : List Obj
  made : List Obj
  heap : List Block
deriving DecidableEq, Repr

/-- The state at program start. -/
def World.init : World := ⟨[], [], [], [], []⟩

/-- The addresses a run gives to its objects, heap blocks and string literals,
by name. -/
abbrev Layout := String → Nat

/-- The numeric value of an address in a run. -/
def Address.resolve (L : Layout) (a : Address) : Nat := L a.object + a.offset

/-- The characters of a piece of output in a run. -/
def Chunk.render (L : Layout) : Chunk → String
  | .text s => s
  | .pointer a => showPtr (a.resolve L)
  | .distance a b => showInt (((a.resolve L : Int) - (b.resolve L : Int)).natAbs : Int)

/-- The characters of a line of output in a run. -/
def renderLine (L : Layout) (line : List Chunk) : String :=
  String.join (line.map (Chunk.render L))

/-- The objects whose addresses a line of output shows. -/
def lineObjects (line : List Chunk) : List String :=
  line.flatMap fun c =>
    match c with
    | .text _ => []
    | .pointer a => [a.object]
    | .distance a b => [a.object, b.object]

/-- A computation of the program: it may fail, and otherwise changes the state. -/
abbrev Run := StateT World (Except RuntimeError)

/-- Write characters to `std::cout`: the effect of `std::cout << "literal"` and
of every formatted insertion once the value is formatted. -/
def put (s : String) : Run Unit := modify fun w => { w with line := pushChunk w.line (.text s) }

/-- Write a piece of output to `std::cout`. -/
def emit (c : Chunk) : Run Unit := modify fun w => { w with line := pushChunk w.line c }

/-- The manipulator `std::endl`. -/
def endl : Run Unit := modify fun w => { w with lines := w.lines ++ [w.line], line := [] }

/-- Begin the lifetime of an object. -/
def construct (o : Obj) : Run Unit :=
  modify fun w => { w with live := o :: w.live, made := o :: w.made }

/-- End the lifetime of an object. -/
def destroy (o : Obj) : Run Unit := do
  let w ← get
  if o ∈ w.live then set { w with live := w.live.erase o } else throw RuntimeError.notAlive

/-- The expression `new double[n]`, evaluated for the object `owner`; a
negative length throws `std::bad_array_new_length`. -/
def newArray (owner : String) (n : Int) : Run Unit :=
  if n < 0 then throw RuntimeError.badArrayLength
  else modify fun w => { w with heap := ⟨owner, List.replicate n.toNat none⟩ :: w.heap }

/-- The statement `delete[] elem`, executed for the object `owner`. -/
def deleteArray (owner : String) : Run Unit := do
  let w ← get
  match w.heap.find? (fun b => b.owner == owner) with
  | some b => set { w with heap := w.heap.erase b }
  | none => throw RuntimeError.notAlive

/-- The assignment `elem[i] = x` in the block of `owner`. -/
def writeElem (owner : String) (i : Int) (x : Double) : Run Unit := do
  let w ← get
  match w.heap.find? (fun b => b.owner == owner) with
  | some b =>
    if 0 ≤ i ∧ i.toNat < b.cells.length then
      set { w with heap := (w.heap.erase b).cons ⟨owner, b.cells.set i.toNat (some x)⟩ }
    else throw RuntimeError.outOfBounds
  | none => throw RuntimeError.notAlive

/-- The declaration of a function-local `static` object: its constructor runs
the first time control passes through the declaration. -/
def staticInit (o : Obj) (ctor : Run Unit) : Run Unit := do
  let w ← get
  if o ∈ w.made then pure () else ctor

/-- The object declared as the local variable `var` of the function `fn`. -/
def automatic (fn var type : String) : Obj := ⟨fn ++ "::" ++ var, type, .automatic⟩

/-- Run a program from the initial state. -/
def execute (p : Run α) : Except RuntimeError (α × World) := p.run World.init

/-- The lines a program has written when it ends (the unfinished last line
included when it is not empty), with places for the pointers; `none` when the
program fails. -/
def template (p : Run α) : Option (List (List Chunk)) :=
  match execute p with
  | .ok (_, w) => some (if w.line = [] then w.lines else w.lines ++ [w.line])
  | .error _ => none

/-- The lines a program prints in a run with layout `L`. -/
def output (L : Layout) (p : Run α) : Option (List String) :=
  (template p).map (List.map (renderLine L))

/-- A line made of exactly the characters `s`. -/
def textLine (s : String) : List Chunk := if s = "" then [] else [.text s]

/-- The program prints a line made of exactly the characters `s`, in every run. -/
def printsLine (p : Run α) (s : String) : Prop :=
  textLine s ∈ (template p).getD []

instance (p : Run α) (s : String) : Decidable (printsLine p s) := by
  unfold printsLine; infer_instance

/-- The lines `first, first + 1, ...` of a program that are made of exactly the
characters of `ss`, in this order and in every run. -/
def printsLinesAt (p : Run α) (first : Nat) (ss : List String) : Prop :=
  (((template p).getD []).drop first).take ss.length = ss.map textLine

instance (p : Run α) (first : Nat) (ss : List String) : Decidable (printsLinesAt p first ss) := by
  unfold printsLinesAt; infer_instance

/-! ## Overload resolution

Only what the programs exercise: a call with one explicit argument, ranked by
the implicit conversion of that argument ([over.ics.rank]); the difference
between an operator expression `a @ b`, whose candidates are the member and the
non-member functions named `operator@`, and an explicit `a.operator@(b)`, whose
candidates are the members alone ([over.match.oper], [class.member.lookup]);
and the two phases of list-initialization ([over.match.list]).  Narrowing is
not modelled: every initialization in the programs compiles. -/

/-- The argument and parameter types that occur. -/
inductive CType
  | bool | char | short | unsignedShort | int | unsignedInt | long | unsignedLong
  | longLong | unsignedLongLong | float | double | longDouble
  | constCharPtr
  | constVoidPtr
  | objectPtr
  | manipulator
  | classType (name : String)
deriving DecidableEq, Repr

/-- The arithmetic types. -/
def CType.isArithmetic : CType → Bool
  | .constCharPtr | .constVoidPtr | .objectPtr | .manipulator | .classType _ => false
  | _ => true

/-- The object pointer types. -/
def CType.isPointer : CType → Bool
  | .constCharPtr | .constVoidPtr | .objectPtr => true
  | _ => false

/-- Rank of the implicit conversion from an argument type to a parameter type,
smaller is better: `0` exact match, `1` promotion, `2` conversion, `3` a
conversion of a pointer to `bool` (worse than any conversion that is not);
`none` when there is no implicit conversion. -/
def conversionRank (arg param : CType) : Option Nat :=
  if arg = param then some 0
  else if (arg = .bool ∨ arg = .char ∨ arg = .short ∨ arg = .unsignedShort) ∧ param = .int then some 1
  else if arg = .float ∧ param = .double then some 1
  else if arg.isArithmetic ∧ param.isArithmetic then some 2
  else if arg.isPointer ∧ param = .constVoidPtr then some 2
  else if arg.isPointer ∧ param = .bool then some 3
  else none

/-- A function named `operator@`, by whether it is a member of the class of the
left operand and by the type of its explicit parameter. -/
structure Candidate where
  member : Bool
  param : CType
deriving DecidableEq, Repr

/-- The two ways of writing an operator call. -/
inductive CallForm
  | operatorExpr
  | memberCall
deriving DecidableEq, Repr

/-- The candidates with the best rank among `ranked`. -/
def bestRanked (ranked : List (Nat × Candidate)) : List Candidate :=
  match (ranked.map Prod.fst).min? with
  | some r => (ranked.filter (fun rc => rc.1 == r)).map Prod.snd
  | none => []

/-- Overload resolution: the one best viable candidate, or `none` when there is
no viable candidate or the call is ambiguous (the program is then ill-formed). -/
def resolve (form : CallForm) (candidates : List Candidate) (arg : CType) : Option Candidate :=
  let pool := match form with
    | .operatorExpr => candidates
    | .memberCall => candidates.filter (fun c => c.member)
  let ranked := pool.filterMap (fun c => (conversionRank arg c.param).map (fun r => (r, c)))
  match bestRanked ranked with
  | [c] => some c
  | _ => none

/-- The functions named `operator<<` that `<ostream>` declares for a
`std::ostream` on the left: the members of `std::basic_ostream` for the
arithmetic types, for `const void*` and for the manipulators, and the
non-member function templates for characters and C strings. -/
def ostreamInserters : List Candidate :=
  [ ⟨true, .bool⟩, ⟨true, .short⟩, ⟨true, .unsignedShort⟩, ⟨true, .int⟩, ⟨true, .unsignedInt⟩,
    ⟨true, .long⟩, ⟨true, .unsignedLong⟩, ⟨true, .longLong⟩, ⟨true, .unsignedLongLong⟩,
    ⟨true, .float⟩, ⟨true, .double⟩, ⟨true, .longDouble⟩, ⟨true, .constVoidPtr⟩,
    ⟨true, .manipulator⟩,
    ⟨false, .char⟩, ⟨false, .constCharPtr⟩ ]

/-- A value handed to `operator<<`. A `const char*` carries its address and the
characters of the C string found there; `distance a b` is the `long long` that
holds the absolute value of the difference of two pointers. -/
inductive Value
  | int (n : Int)
  | long (n : Int)
  | longLong (n : Int)
  | distance (a b : Address)
  | size (n : Nat)
  | double (d : Double)
  | cstring (addr : Address) (chars : String)
  | voidPtr (addr : Address)
  | objectPtr (addr : Address)
deriving DecidableEq, Repr

/-- The static type of a value. -/
def Value.type : Value → CType
  | .int _ => .int
  | .long _ => .long
  | .longLong _ => .longLong
  | .distance _ _ => .longLong
  | .size _ => .unsignedLong
  | .double _ => .double
  | .cstring _ _ => .constCharPtr
  | .voidPtr _ => .constVoidPtr
  | .objectPtr _ => .objectPtr

/-- What the inserter with parameter type `param` writes for `v`, after the
implicit conversion of `v` to `param`. -/
def render (param : CType) (v : Value) : Option Chunk :=
  match param, v with
  | .constCharPtr, .cstring _ chars => some (.text chars)
  | .constVoidPtr, .cstring addr _ => some (.pointer addr)
  | .constVoidPtr, .voidPtr addr => some (.pointer addr)
  | .constVoidPtr, .objectPtr addr => some (.pointer addr)
  | .int, .int n => some (.text (showInt n))
  | .long, .long n => some (.text (showInt n))
  | .longLong, .longLong n => some (.text (showInt n))
  | .longLong, .distance a b => some (.distance a b)
  | .unsignedLong, .size n => some (.text (showSize n))
  | .double, .double d => some (.text (showDouble d))
  | _, _ => none

/-- The call `std::cout << v` or `std::cout.operator<<(v)`: resolve the
overload, then write what the selected function writes. -/
def streamInsert (form : CallForm) (v : Value) : Run Unit :=
  match resolve form ostreamInserters v.type with
  | some c =>
    match render c.param v with
    | some piece => emit piece
    | none => throw RuntimeError.illFormed
  | none => throw RuntimeError.illFormed

/-- The expression statement `std::cout << v`. -/
def cout (v : Value) : Run Unit := streamInsert .operatorExpr v

/-- The implicit conversion of an argument to `int`. -/
def Value.toInt? : Value → Option Int
  | .int n => some n
  | .long n => some (wrapInt n)
  | .longLong n => some (wrapInt n)
  | .double d => some d.toInt
  | _ => none

/-- The implicit conversion of an argument to `double`. -/
def Value.toDouble? : Value → Option Double
  | .int n => some (Double.ofInt n)
  | .long n => some (Double.ofInt n)
  | .longLong n => some (Double.ofInt n)
  | .double d => some d
  | _ => none

/-- A constructor of a class: an ordinary constructor with its parameter types,
a constructor taking `std::initializer_list<elem>`, or the implicit copy
constructor. -/
inductive Ctor
  | regular (params : List CType)
  | initializerList (elem : CType)
  | copy
deriving DecidableEq, Repr

/-- The two forms of a declaration `T x{...}` and `T x(...)`. -/
inductive InitForm
  | braces
  | parens
deriving DecidableEq, Repr

/-- Every argument converts implicitly to the parameter in its position. -/
def allConvert (args params : List CType) : Bool :=
  args.length == params.length &&
    (List.zip args params).all (fun ap => (conversionRank ap.1 ap.2).isSome)

/-- An initializer-list constructor that accepts the braced list `args`. -/
def Ctor.acceptsList (args : List CType) : Ctor → Bool
  | .initializerList elem => args.all (fun a => (conversionRank a elem).isSome)
  | _ => false

/-- A constructor that can be called with the arguments `args` of an object of
class `cls`. -/
def Ctor.viable (cls : String) (args : List CType) : Ctor → Bool
  | .regular params => allConvert args params
  | .initializerList _ => false
  | .copy => args == [CType.classType cls]

/-- Constructor selection ([over.match.list]). For `T x{...}` the
initializer-list constructors are tried first, with the whole list as their
argument (unless the list is empty and `T` has a default constructor); only when
none accepts the list are all constructors tried with the elements as arguments,
as they are for `T x(...)`. `none` when no constructor, or more than one, is
left. -/
def selectConstructor (cls : String) (ctors : List Ctor) (form : InitForm)
    (args : List CType) : Option Ctor :=
  let listPhase : Bool := form == .braces && !(args.isEmpty && ctors.contains (.regular []))
  match (if listPhase then ctors.filter (Ctor.acceptsList args) else []) with
  | [c] => some c
  | _ :: _ :: _ => none
  | [] =>
    match ctors.filter (Ctor.viable cls args) with
    | [c] => some c
    | _ => none

/-! ## hello.cpp -/

namespace hello

/-- The lambda `print_string` of `main`: `std::cout << str`. -/
def print_string (str : Value) : Run Unit := cout str

/-- The function `main` of hello.cpp. -/
def main : Run Int := do
  put "Hello, World!"; endl; endl
  put "Solution 1 - Normal usage: "
  cout (.cstring ⟨"hello.cpp:12 \"text\"", 0⟩ "text"); endl
  endl; put "Solution 2 - Helper function: "
  print_string (.cstring ⟨"hello.cpp:19 \"text\"", 0⟩ "text")
  endl
  endl; put "Solution 3 - Explicit operator<< call: "
  -- const char text[] = "text"; the argument &text[0] is the address of the array
  let text : Address := ⟨"main::text", 0⟩
  streamInsert .memberCall (.cstring text "text"); endl
  endl; put "Void* overload (hex address): "
  -- const char* ptr = "text";
  let ptr : Address := ⟨"hello.cpp:29 \"text\"", 0⟩
  streamInsert .memberCall (.voidPtr ptr); endl
  endl; put "Text value using normal <<: "
  cout (.cstring ptr "text"); endl
  return 0

end hello

/-! ## asm_interop_example.cpp -/

namespace asm_interop_example

/-- Modelled from the spec: `asm_add`, defined in the assembly file
`asm_functions.s`, which is not among the sources. The spec names the function
and gives one value, "`asm_add(15, 25)` prints `40`"; the model is the 32-bit
sum of the two arguments. -/
def asm_add (a b : Int) : Int := wrapInt (a + b)

/-- The other two functions of `asm_functions.s`, of which nothing is said:
`asm_multiply(a, b)` and the effect of `asm_swap(&x, &y)` on `(x, y)`. -/
structure AsmUnit where
  asm_multiply : Int → Int → Int
  asm_swap : Int × Int → Int × Int

/-- The function `main` of asm_interop_example.cpp. -/
def main (asm : AsmUnit) : Run Int := do
  put "=== C++ and Assembly Interoperability Example ==="; endl
  endl
  let sum := asm_add 15 25
  put "Assembly asm_add(15, 25) = "; cout (.int sum); endl
  let product := asm.asm_multiply 123456 789
  put "Assembly asm_multiply(123456, 789) = "; cout (.long product); endl
  let xy : Int × Int := (100, 200)
  endl; put "Before swap: x="; cout (.int xy.1); put ", y="; cout (.int xy.2); endl
  let xy := asm.asm_swap xy
  put "After swap: x="; cout (.int xy.1); put ", y="; cout (.int xy.2); endl
  endl; put "Zero overhead: direct register usage, no conversions!"; endl
  return 0

end asm_interop_example

/-! ## c_functions.c -/

namespace c_functions

/-- The C `struct Point`. -/
structure Point where
  x : Int
  y : Int
deriving DecidableEq, Repr

/-- The function `add_numbers`. -/
def add_numbers (a b : Int) : Int := wrapInt (a + b)

/-- The `for` loop of `calculate_average`, from the state `(i, sum)`: while
`i < size`, add `array[i]` to `sum` and increment `i`. The result is the state
in which the loop is left. Reading `array[i]` outside the array is an error. -/
def calculate_average_loop (array : List Double) (size : Int) :
    Nat → Int → Double → Except RuntimeError (Int × Double)
  | 0, _, _ => .error .outOfFuel
  | fuel + 1, i, sum =>
    if i < size then
      match (if 0 ≤ i then array.get? i.toNat else none) with
      | some x => calculate_average_loop array size fuel (wrapInt (i + 1)) (Double.add sum x)
      | none => .error .outOfBounds
    else .ok (i, sum)

/-- The function `calculate_average` with a budget of `fuel` steps for its
loop: `sum = 0.0`, the loop, `return sum / size`, where `size` is converted to
`double`. The C standard leaves a division by zero undefined (C11 6.5.5p5), so
`size = 0` is reported as an error; every other quotient is `Double.div`. -/
def calculate_average_fuel (fuel : Nat) (array : List Double) (size : Int) :
    Except RuntimeError Double :=
  match calculate_average_loop array size fuel 0 Double.zero with
  | .ok (_, sum) =>
    if size = 0 then .error .divisionByZero
    else .ok (Double.div sum (Double.ofInt size))
  | .error e => .error e

/-- The function `calculate_average`. The loop is given one step more than the
`max(size, 0)` iterations it can make. -/
def calculate_average (array : List Double) (size : Int) : Except RuntimeError Double :=
  calculate_average_fuel (size.toNat + 1) array size

/-- The function `modify_struct`, as the new value of `*p`. -/
def modify_struct (p : Point) : Point := ⟨wrapInt (p.x * 2), wrapInt (p.y * 2)⟩

end c_functions

/-! ## c_interop_example.cpp -/

namespace c_interop_example

open c_functions

/-- The function `main` of c_interop_example.cpp. -/
def main : Run Int := do
  put "=== C++ and C Interoperability Example ==="; endl
  endl
  let sum := add_numbers 10 20
  put "C function add_numbers(10, 20) = "; cout (.int sum); endl
  let numbers : List Double :=
    [Double.ofDecimal 15 1, Double.ofDecimal 25 1, Double.ofDecimal 35 1,
     Double.ofDecimal 45 1, Double.ofDecimal 55 1]
  let avg ← (calculate_average numbers 5 : Except RuntimeError Double)
  put "C function calculate_average() = "; cout (.double avg); endl
  let p : Point := ⟨10, 20⟩
  endl; put "Before C function: Point("; cout (.int p.x); put ", "; cout (.int p.y); put ")"; endl
  let p := modify_struct p
  put "After C function: Point("; cout (.int p.x); put ", "; cout (.int p.y); put ")"; endl
  endl; put "No overhead: same calling convention, same data layout!"; endl
  return 0

end c_interop_example

/-! ## operator_keyword.cpp -/

namespace operator_keyword

/-- The class `Number`. -/
structure Number where
  value : Int
deriving DecidableEq, Repr

namespace Number

/-- The constructor `Number(int v) : value(v)`. -/
def ctor (this : Obj) (v : Int) : Run Number := do
  construct this
  return ⟨v⟩

/-- The member `operator+`: `return Number(value + other.value)`. -/
def operator_plus (self other : Number) : Number := ⟨wrapInt (self.value + other.value)⟩

/-- The member `operator[]`: a reference to `value`, whatever the index. -/
def operator_index (self : Number) (_index : Int) : Int := self.value

/-- The member `operator()`: `return value + x + y`. -/
def operator_call (self : Number) (x y : Int) : Int := wrapInt (wrapInt (self.value + x) + y)

/-- The member `operator++()`: `++value; return *this`. The first component is
the object after the call, the second what the returned reference denotes. -/
def operator_inc (self : Number) : Number × Number :=
  let self' : Number := ⟨wrapInt (self.value + 1)⟩
  (self', self')

/-- The member `operator++(int)`: `Number temp = *this; value++; return temp`.
The first component is the object after the call, the second the returned
`Number`. -/
def operator_inc_int (self : Number) : Number × Number :=
  let temp : Number := self
  (⟨wrapInt (self.value + 1)⟩, temp)

/-- The member `getValue`. -/
def getValue (self : Number) : Int := self.value

end Number

/-- The friend `operator<<(std::ostream&, const Number&)`: `os << num.value`. -/
def operator_shl (num : Number) : Run Unit := cout (.int num.value)

/-- The functions named `operator+` that take a `Number` on the left: the one
member of `Number`. -/
def plusCandidates : List Candidate := [⟨true, .classType "Number"⟩]

/-- The expression `a + b` (`form = operatorExpr`) or `a.operator+(b)`
(`form = memberCall`) on two `Number`s. -/
def plus (form : CallForm) (a b : Number) : Run Number :=
  match resolve form plusCandidates (.classType "Number") with
  | some _ => pure (a.operator_plus b)
  | none => throw RuntimeError.illFormed

/-- The expression `std::cout << num` for a `Number`: the candidates are those
of `<ostream>` and the friend of `Number`. -/
def coutNumber (num : Number) : Run Unit :=
  match resolve .operatorExpr (ostreamInserters ++ [⟨false, .classType "Number"⟩])
      (.classType "Number") with
  | some _ => operator_shl num
  | none => throw RuntimeError.illFormed

/-- The function `main` of operator_keyword.cpp. -/
def main : Run Int := do
  put "=== Understanding the 'operator' Keyword ==="; endl; endl
  let a ← Number.ctor (automatic "main" "a" "Number") 10
  let b ← Number.ctor (automatic "main" "b" "Number") 20
  let c ← plus .operatorExpr a b
  construct (automatic "main" "c" "Number")
  put "a + b = "; coutNumber c; put "  (calls a.operator+(b))"; endl
  put "cout << c calls: operator<<(cout, c)"; endl; endl
  put "a[0] = "; cout (.int (a.operator_index 0)); put "  (calls a.operator[](0))"; endl
  put "a(5, 3) = "; cout (.int (a.operator_call 5 3)); put "  (calls a.operator()(5, 3))"; endl; endl
  let d ← Number.ctor (automatic "main" "d" "Number") 100
  put "d = "; coutNumber d; endl
  put "++d = "
  let (d, ref) := d.operator_inc
  coutNumber ref; put "  (calls d.operator++())"; endl
  put "d++ = "
  let (d, temp) := d.operator_inc_int
  construct ⟨"main::d++", "Number", .temporary⟩
  coutNumber temp; put "  (calls d.operator++(0), dummy int)"; endl
  destroy ⟨"main::d++", "Number", .temporary⟩
  put "d now = "; coutNumber d; endl; endl
  let e ← Number.ctor (automatic "main" "e" "Number") 50
  let f ← Number.ctor (automatic "main" "f" "Number") 30
  let g ← plus .memberCall e f
  construct (automatic "main" "g" "Number")
  put "e.operator+(f) = "; coutNumber g; put "  (explicit call)"; endl
  endl; put "=== How the Compiler Sees It ==="; endl
  put "Expression: a + b"; endl
  put "Step 1: Identify 'a' is a Number type"; endl
  put "Step 2: Look for 'operator+' member function or free function"; endl
  put "Step 3: Transform to function call: a.operator+(b)"; endl
  put "Step 4: Generate machine code for that function call"; endl
  -- end of scope: g, f, e, d, c, b, a
  destroy (automatic "main" "g" "Number"); destroy (automatic "main" "f" "Number")
  destroy (automatic "main" "e" "Number"); destroy (automatic "main" "d" "Number")
  destroy (automatic "main" "c" "Number"); destroy (automatic "main" "b" "Number")
  destroy (automatic "main" "a" "Number")
  return 0

end operator_keyword

/-! ## initializer_list.cpp -/

namespace initializer_list

/-- The class `Vector`: `elem` is the heap block owned by the object, named
after it, and `sz` the number of elements. -/
structure Vector where
  this : Obj
  sz : Int
deriving DecidableEq, Repr

/-- The constructor `Vector(int s) : elem{new double[s]}, sz{s}` and its body. -/
def Vector.ctor (this : Obj) (s : Int) : Run Vector := do
  newArray this.name s
  let self : Vector := ⟨this, s⟩
  put "Vector of size "; cout (.int self.sz); put " created"; endl
  construct this
  return self

/-- The destructor `~Vector()`: `delete[] elem`. -/
def Vector.dtor (self : Vector) : Run Unit := do
  deleteArray self.this.name
  destroy self.this

/-- The `int` variables of `main`, by name. -/
abbrev Memory := String → Int

/-- The class `Point`: a `const int`, a reference to an `int` variable (kept as
the name of the variable), and an `int`. -/
structure Point where
  x : Int
  y_ref : String
  y_value : Int
deriving DecidableEq, Repr

namespace Point

/-- The member initializer list `x{x_val}, y_ref{y_val}, y_value{y_val}`, where
`y_val` is a reference to the variable named `y_val`. -/
def initializers (mem : Memory) (x_val : Int) (y_val : String) : Point :=
  ⟨x_val, y_val, mem y_val⟩

/-- The constructor body: `y_value = 100`. -/
def body (self : Point) : Point := { self with y_value := 100 }

/-- The constructor `Point(int x_val, int& y_val)`: the member initializer
list, then the body. -/
def ctor (this : Obj) (mem : Memory) (x_val : Int) (y_val : String) : Run Point := do
  let self := body (initializers mem x_val y_val)
  construct this
  return self

/-- The member `print`. -/
def print (mem : Memory) (self : Point) : Run Unit := do
  put "x="; cout (.int self.x); put ", y_ref="; cout (.int (mem self.y_ref))
  put ", y_value="; cout (.int self.y_value); endl

end Point

/-- The constructor `Base(int val)`. -/
def Base.ctor (val : Int) : Run Unit := do
  put "Base constructor: "; cout (.int val); endl

/-- The constructor `Derived(int val) : Base{val}`. -/
def Derived.ctor (this : Obj) (val : Int) : Run Unit := do
  Base.ctor val
  put "Derived constructor"; endl
  construct this

/-- The function `main` of initializer_list.cpp. -/
def main : Run Int := do
  put "=== Member Initializer Lists ==="; endl; endl
  put "1. Vector example:"; endl
  let v ← Vector.ctor (automatic "main" "v" "Vector") 5
  endl
  put "2. Point with const/reference (requires initializer list):"; endl
  let mem : Memory := fun name => if name = "y" then 42 else 0
  let p ← Point.ctor (automatic "main" "p" "Point") mem 10 "y"
  p.print mem
  endl
  put "3. Derived class (initializer list calls base):"; endl
  Derived.ctor (automatic "main" "d" "Derived") 99
  endl
  put "=== Initialization vs Assignment ==="; endl
  put "Initializer list:  : elem\x7bnew double[s]\x7d, sz\x7bs\x7d"; endl
  put "  - Direct initialization (like declaring: int x\x7b5\x7d;)"; endl
  put "  - Happens BEFORE constructor body runs"; endl
  put "  - More efficient (one operation)"; endl
  put "  - REQUIRED for const, references, base classes"; endl
  endl
  put "Assignment in body: elem = new double[s]; sz = s;"; endl
  put "  - Members first default-constructed"; endl
  put "  - Then assigned new values (two operations)"; endl
  put "  - Less efficient"; endl
  put "  - Doesn't work for const/references"; endl
  -- end of scope: d, p, v
  destroy (automatic "main" "d" "Derived")
  destroy (automatic "main" "p" "Point")
  v.dtor
  return 0

end initializer_list

/-! ## memory_visualization.cpp -/

namespace memory_visualization

/-- The members of `Vector`: `double* elem; int sz;`. -/
def Vector.members : List Member := [Member.pointer, Member.int]

/-- The class `Vector`: `elem` is the address of the heap block, `sz` the
number of elements. -/
structure Vector where
  this : Obj
  elem : Address
  sz : Int
deriving DecidableEq, Repr

/-- The address of a `Vector` object. -/
def Vector.address (self : Vector) : Address := ⟨self.this.name, 0⟩

/-- The constructor `Vector(int s) : elem{new double[s]}, sz{s}`. -/
def Vector.ctor (this : Obj) (s : Int) : Run Vector := do
  newArray this.name s
  construct this
  return ⟨this, ⟨this.name ++ ".elem", 0⟩, s⟩

/-- The destructor `~Vector()`: `delete[] elem`. -/
def Vector.dtor (self : Vector) : Run Unit := do
  deleteArray self.this.name
  destroy self.this

/-- The member `show_memory`. -/
def Vector.show_memory (self : Vector) : Run Unit := do
  put "Vector object itself:"; endl
  put "  Address of Vector object: "; cout (.objectPtr self.address); endl
  put "  Size of Vector object:    "; cout (.size (sizeofClass Vector.members)); put " bytes"; endl
  endl
  put "Members inside Vector object:"; endl
  put "  Address of elem member:   "; cout (.objectPtr ⟨self.address.object, self.address.offset + offsetAfter [] Member.pointer.align⟩); endl
  put "  Value of elem (pointer):  "; cout (.objectPtr self.elem); put " <- points to heap"; endl
  put "  Address of sz member:     "; cout (.objectPtr ⟨self.address.object, self.address.offset + offsetAfter [Member.pointer] Member.int.align⟩); endl
  put "  Value of sz:              "; cout (.int self.sz); endl
  endl
  put "Heap data (pointed to by elem):"; endl
  put "  elem[0] at: "; cout (.objectPtr ⟨self.elem.object, self.elem.offset + 0 * Member.double.size⟩); endl
  put "  elem[1] at: "; cout (.objectPtr ⟨self.elem.object, self.elem.offset + 1 * Member.double.size⟩); endl
  put "  elem[2] at: "; cout (.objectPtr ⟨self.elem.object, self.elem.offset + 2 * Member.double.size⟩); endl
  -- long long distance = (char*)elem - (char*)this; printed as std::abs(distance)
  endl
  put "Distance from Vector object to heap data: "; cout (.distance self.elem self.address); put " bytes"; endl
  put "They're in DIFFERENT memory regions!"; endl

/-- The function `main` of memory_visualization.cpp. -/
def main : Run Int := do
  put "=== Visualizing 'Representation in Definition' ==="; endl; endl
  let v ← Vector.ctor (automatic "main" "v" "Vector") 5
  v.show_memory
  endl; endl
  put "=== What This Shows ==="; endl
  endl
  put "The Vector object (16 bytes):"; endl
  put "  ┌─────────────────┐  <- On STACK"; endl
  put "  │ elem (pointer)  │──────┐"; endl
  put "  ├─────────────────┤      │"; endl
  put "  │ sz (integer)    │      │"; endl
  put "  └─────────────────┘      │"; endl
  put "                           │"; endl
  put "                           ▼"; endl
  put "  ┌─────────────────┐  <- On HEAP (far away!)"; endl
  put "  │   elem[0]       │"; endl
  put "  ├─────────────────┤"; endl
  put "  │   elem[1]       │"; endl
  put "  ├─────────────────┤"; endl
  put "  │   elem[2]       │"; endl
  put "  ├─────────────────┤"; endl
  put "  │      ...        │"; endl
  put "  └─────────────────┘"; endl
  endl
  put "KEY POINT:"; endl
  put "• The POINTER 'elem' is part of the Vector representation"; endl
  put "• The Vector object size is fixed: always 16 bytes"; endl
  put "• Compiler knows this at compile time"; endl
  put "• Elements can be anywhere on heap, but pointer is in object"; endl
  put "• This is what 'representation is part of definition' means!"; endl
  -- end of scope: v
  v.dtor
  return 0

end memory_visualization

/-! ## concrete_vs_abstract.cpp -/

namespace concrete_vs_abstract

/-- The members of `Vector`: `double* elem; int sz;`. -/
def Vector.members : List Member := [Member.pointer, Member.int]

/-- The members of `Circle`: the vtable pointer and `double radius`. -/
def Circle.members : List Member := [Member.pointer, Member.double]

/-- The members of `Rectangle`: the vtable pointer, `double width` and
`double height`. -/
def Rectangle.members : List Member := [Member.pointer, Member.double, Member.double]

/-- The class `Vector`. -/
structure Vector where
  this : Obj
  sz : Int
deriving DecidableEq, Repr

/-- The constructor `Vector(int s) : elem{new double[s]}, sz{s}` and its body. -/
def Vector.ctor (this : Obj) (s : Int) : Run Vector := do
  newArray this.name s
  let self : Vector := ⟨this, s⟩
  put "Vector object created at: "; cout (.objectPtr ⟨this.name, 0⟩)
  put " (size: "; cout (.size (sizeofClass Vector.members)); put " bytes)"; endl
  put "  elem pointer: "; cout (.objectPtr ⟨this.name ++ ".elem", 0⟩); put " (points to heap)"; endl
  put "  sz value: "; cout (.int self.sz); endl
  construct this
  return self

/-- The destructor `~Vector()`: `delete[] elem`. -/
def Vector.dtor (self : Vector) : Run Unit := do
  deleteArray self.this.name
  destroy self.this

/-- The function `show_memory_layout`. -/
def show_memory_layout : Run Unit := do
  put "=== Memory Layout Demonstration ==="; endl; endl
  put "Concrete type Vector:"; endl
  put "  sizeof(Vector) = "; cout (.size (sizeofClass Vector.members)); put " bytes"; endl
  put "  sizeof(double*) = "; cout (.size Member.pointer.size); put " bytes (elem pointer)"; endl
  put "  sizeof(int) = "; cout (.size Member.int.size); put " bytes (sz)"; endl
  endl
  put "Creating: Vector v(100);"; endl
  let v ← Vector.ctor (automatic "show_memory_layout" "v" "Vector") 100
  endl
  put "KEY INSIGHT:"; endl
  put "  The Vector object (16 bytes) is on the STACK"; endl
  put "  The elements (800 bytes) are on the HEAP"; endl
  put "  But the POINTER to elements is INSIDE the Vector object!"; endl
  put "  Compiler knows Vector is always 16 bytes."; endl
  endl
  -- end of scope: v
  v.dtor

/-- The constructors `Circle(double r)` and `Rectangle(double w, double h)`:
they store their arguments. -/
def Shape.ctor (this : Obj) : Run Unit := construct this

/-- The destructor of a `Circle` or a `Rectangle`. -/
def Shape.dtor (this : Obj) : Run Unit := destroy this

/-- The function `show_abstract_type`. -/
def show_abstract_type : Run Unit := do
  put "=== Abstract Type (No Fixed Representation) ==="; endl; endl
  put "Abstract Shape:"; endl
  put "  sizeof(Shape) = undefined (abstract class)"; endl
  put "  sizeof(Circle) = "; cout (.size (sizeofClass Circle.members)); put " bytes"; endl
  put "  sizeof(Rectangle) = "; cout (.size (sizeofClass Rectangle.members)); put " bytes"; endl
  endl
  put "Different derived classes have DIFFERENT sizes!"; endl
  put "Can't allocate Shape on stack - don't know how much space needed."; endl
  endl
  Shape.ctor (automatic "show_abstract_type" "c" "Circle")
  Shape.ctor (automatic "show_abstract_type" "r" "Rectangle")
  put "Shape* s1 = &circle;     <- pointer is "; cout (.size Member.pointer.size); put " bytes"; endl
  put "Shape* s2 = &rectangle;  <- pointer is "; cout (.size Member.pointer.size); put " bytes"; endl
  put "But circle is "; cout (.size (sizeofClass Circle.members)); put " bytes, rectangle is "; cout (.size (sizeofClass Rectangle.members)); put " bytes!"; endl
  endl
  -- end of scope: r, c
  Shape.dtor (automatic "show_abstract_type" "r" "Rectangle")
  Shape.dtor (automatic "show_abstract_type" "c" "Circle")

/-- The function `show_four_benefits`. -/
def show_four_benefits : Run Unit := do
  put "=== The 4 Benefits of Concrete Types ==="; endl; endl
  put "1. STACK ALLOCATION:"; endl
  put "   Vector v(5);  <- compiler allocates 16 bytes on stack"; endl
  put "   Stack: [elem_ptr][sz] <- Fixed size, no heap needed for object"; endl
  endl
  put "2. DIRECT REFERENCE:"; endl
  put "   Vector v(5);"; endl
  put "   v[0] = 3.14;   <- 'v' is the actual object, not a pointer"; endl
  put "   No need for: v->operator[](0)"; endl
  endl
  put "3. IMMEDIATE INITIALIZATION:"; endl
  put "   Vector v(5);   <- Object is 100% ready after this line"; endl
  put "   No separate .init() or .setup() needed"; endl
  put "   Constructor guarantees invariants"; endl
  endl
  put "4. COPY OBJECTS:"; endl
  put "   Vector v1(5);"; endl
  put "   Vector v2 = v1;  <- Creates independent copy"; endl
  put "   Both objects are self-contained"; endl
  endl

/-- The function `show_efficiency`. -/
def show_efficiency : Run Unit := do
  put "=== Efficiency: Concrete vs Abstract ==="; endl; endl
  put "Array of 1000 Points (concrete type):"; endl
  put "  Point points[1000];  <- ONE allocation, contiguous memory"; endl
  put "  Size: "; cout (.size (Member.int.size * 2 * 1000)); put " bytes in one block"; endl
  put "  Cache-friendly: CPU can prefetch next elements"; endl
  endl
  put "Array of 1000 Shapes (abstract type):"; endl
  put "  Shape* shapes[1000];  <- 1000 pointer allocations"; endl
  put "  Size: "; cout (.size (Member.pointer.size * 1000)); put " bytes for pointers"; endl
  put "        + scattered heap allocations for actual objects"; endl
  put "  Not cache-friendly: objects scattered in memory"; endl
  endl
  put "Performance difference: 10-100x faster for concrete types!"; endl
  put "  - One allocation vs thousands"; endl
  put "  - Contiguous vs scattered memory"; endl
  put "  - Direct access vs pointer indirection"; endl

/-- The function `main` of concrete_vs_abstract.cpp. -/
def main : Run Int := do
  show_memory_layout
  show_abstract_type
  show_four_benefits
  show_efficiency
  endl
  put "=== SUMMARY ==="; endl
  put "\"Representation is part of definition\" means:"; endl
  put "  - Compiler knows EXACT size at compile time"; endl
  put "  - All data members visible in class definition"; endl
  put "  - Even if data is elsewhere, POINTERS are in the object"; endl
  put "  - Enables stack allocation, direct access, copying"; endl
  put "  - Results in optimal efficiency (time & space)"; endl
  return 0

end concrete_vs_abstract

/-! ## brace_init_compiler.cpp -/

namespace brace_init_compiler

/-- The class `Example`. -/
structure Example where
  a : Int
  b : Double
deriving DecidableEq, Repr

namespace Example

/-- The constructors of `Example`. -/
def ctors : List Ctor := [.regular [.int, .double], .initializerList .int, .copy]

/-- The constructor `Example(int x, double y) : a{x}, b{y}`. -/
def ctor_regular (this : Obj) (x : Int) (y : Double) : Run Example := do
  put "Regular constructor: "; cout (.int x); put ", "; cout (.double y); endl
  construct this
  return ⟨x, y⟩

/-- The constructor `Example(std::initializer_list<int> list)`. After
`a = *it++` the iterator is `list.begin() + 1`, which differs from
`list.end()` exactly when `list.size()` is not `1`. -/
def ctor_list (this : Obj) (list : List Int) : Run Example := do
  put "Initializer list constructor: "; cout (.size list.length); put " elements"; endl
  let a ← match list.get? 0 with
    | some v => pure v
    | none => throw RuntimeError.outOfBounds
  let b ← if list.length ≠ 1 then
      match list.get? 1 with
      | some v => pure (Double.ofInt v)
      | none => throw RuntimeError.outOfBounds
    else pure Double.zero
  construct this
  return ⟨a, b⟩

/-- A declaration of an `Example` with the given form and arguments: select
the constructor, convert the arguments, run it. -/
def init (this : Obj) (form : InitForm) (args : List Value) : Run Example :=
  match selectConstructor "Example" ctors form (args.map Value.type) with
  | some (.initializerList _) =>
    match args.mapM Value.toInt? with
    | some list => ctor_list this list
    | none => throw RuntimeError.illFormed
  | some (.regular _) =>
    match args with
    | [x, y] =>
      match x.toInt?, y.toDouble? with
      | some x, some y => ctor_regular this x y
      | _, _ => throw RuntimeError.illFormed
    | _ => throw RuntimeError.illFormed
  | _ => throw RuntimeError.illFormed

end Example

/-- The function `show_overload_resolution`. -/
def show_overload_resolution : Run Unit := do
  put "=== Overload Resolution for \x7b\x7d ==="; endl; endl
  put "Example e1\x7b1, 2\x7d:"; endl
  let _e1 ← Example.init (automatic "show_overload_resolution" "e1" "Example") .braces [.int 1, .int 2]
  endl; put "Example e2(1, 2.5):"; endl
  let _e2 ← Example.init (automatic "show_overload_resolution" "e2" "Example") .parens
    [.int 1, .double (Double.ofDecimal 25 1)]
  endl; put "Example e3\x7b\x7d:"; endl
  endl
  -- end of scope: e2, e1
  destroy (automatic "show_overload_resolution" "e2" "Example")
  destroy (automatic "show_overload_resolution" "e1" "Example")

/-- The function `show_narrowing_detection`. -/
def show_narrowing_detection : Run Unit := do
  put "=== Narrowing Detection ==="; endl; endl
  put "int a\x7b5\x7d              -> OK"; endl
  put "int b\x7b5.0\x7d            -> COMPILE ERROR (type mismatch)"; endl
  put "int c\x7b300000000000\x7d   -> COMPILE ERROR (overflow)"; endl
  put "int d\x7bl\x7d where l:long -> COMPILE ERROR (potential data loss)"; endl
  endl

/-- The function `main` of brace_init_compiler.cpp. -/
def main : Run Int := do
  put "=== Understanding \x7b\x7d from Compiler Perspective ==="; endl; endl
  put "COMPILER PIPELINE:"; endl
  put "1. LEXER:    Tokenize \x7b and \x7d as LBRACE, RBRACE"; endl
  put "2. PARSER:   Build BracedInitList AST node"; endl
  put "3. SEMANTIC: Type checking + narrowing detection"; endl
  put "4. CODEGEN:  Direct init or constructor call"; endl
  endl
  show_overload_resolution
  show_narrowing_detection
  put "=== Key Insights ==="; endl
  put "• \x7b\x7d creates a 'braced-init-list' AST node"; endl
  put "• Semantic analysis phase checks for narrowing"; endl
  put "• Overload resolution prefers initializer_list constructors"; endl
  put "• Zero runtime overhead - all checks at compile time"; endl
  put "• Same memory layout as old-style initialization"; endl
  return 0

end brace_init_compiler

/-! ## concrete_types.cpp -/

namespace concrete_types

/-- The members of `Vector`: `double* elem; int sz;`. -/
def Vector.members : List Member := [Member.pointer, Member.int]

/-- The members of `Point`: `int x; int y;`. -/
def Point.members : List Member := [Member.int, Member.int]

/-- The members of the local class `Line`: `Point start; Point end;`. -/
def Line.members : List Member := [Member.ofClass Point.members, Member.ofClass Point.members]

/-- The members of `Circle`: the vtable pointer and `double radius`. -/
def Circle.members : List Member := [Member.pointer, Member.double]

/-- The class `Vector`. -/
structure Vector where
  this : Obj
  sz : Int
deriving DecidableEq, Repr

namespace Vector

/-- The constructor `Vector(int s) : elem{new double[s]}, sz{s}`. -/
def ctor (this : Obj) (s : Int) : Run Vector := do
  newArray this.name s
  construct this
  return ⟨this, s⟩

/-- The destructor `~Vector()`: `delete[] elem`. -/
def dtor (self : Vector) : Run Unit := do
  deleteArray self.this.name
  destroy self.this

/-- The member `size`. -/
def size (self : Vector) : Int := self.sz

/-- The statement `v[i] = x`: `operator[]` returns a reference to `elem[i]`,
which is assigned. -/
def operator_index_assign (self : Vector) (i : Int) (x : Double) : Run Unit :=
  writeElem self.this.name i x

end Vector

/-- The class `Point`. -/
structure Point where
  x : Int
  y : Int
deriving DecidableEq, Repr

namespace Point

/-- The constructor `Point() : x{0}, y{0}`. -/
def ctor_default (this : Obj) : Run Point := do
  construct this
  return ⟨0, 0⟩

/-- The constructor `Point(int x, int y) : x{x}, y{y}`. -/
def ctor (this : Obj) (x y : Int) : Run Point := do
  construct this
  return ⟨x, y⟩

/-- The implicit copy constructor. -/
def ctor_copy (this : Obj) (other : Point) : Run Point := do
  construct this
  return ⟨other.x, other.y⟩

/-- The implicit copy assignment `*this = other`, as the new value of `*this`. -/
def assign (_self other : Point) : Point := ⟨other.x, other.y⟩

end Point

/-- The local class `Line` of `demonstrate_placement`. -/
structure Line where
  start : Point
  end_ : Point
deriving DecidableEq, Repr

/-- The constructor `Line(Point s, Point e) : start{s}, end{e}`. -/
def Line.ctor (this : Obj) (s e : Point) : Run Line := do
  construct this
  return ⟨⟨s.x, s.y⟩, ⟨e.x, e.y⟩⟩

/-- The class `Circle`. -/
structure Circle where
  radius : Double
deriving DecidableEq, Repr

/-- The constructor `Circle(double r) : radius{r}`. -/
def Circle.ctor (this : Obj) (r : Double) : Run Circle := do
  construct this
  return ⟨r⟩

/-- The function `demonstrate_placement`. -/
def demonstrate_placement : Run Unit := do
  put "=== 1. Object Placement ==="; endl; endl
  let v1 ← Vector.ctor (automatic "demonstrate_placement" "v1" "Vector") 5
  let _p1 ← Point.ctor (automatic "demonstrate_placement" "p1" "Point") 10 20
  put "Stack objects: Vector size="; cout (.size (sizeofClass Vector.members))
  put " bytes, Point size="; cout (.size (sizeofClass Point.members)); put " bytes"; endl
  staticInit ⟨"demonstrate_placement::v2", "Vector", .static⟩
    (do let _ ← Vector.ctor ⟨"demonstrate_placement::v2", "Vector", .static⟩ 3)
  staticInit ⟨"demonstrate_placement::p2", "Point", .static⟩
    (do let _ ← Point.ctor ⟨"demonstrate_placement::p2", "Point", .static⟩ 0 0)
  put "Static objects created (live for entire program)"; endl
  -- Line line(Point(0, 0), Point(10, 10));
  let s ← Point.ctor ⟨"demonstrate_placement::Point(0, 0)", "Point", .temporary⟩ 0 0
  let e ← Point.ctor ⟨"demonstrate_placement::Point(10, 10)", "Point", .temporary⟩ 10 10
  let _line ← Line.ctor (automatic "demonstrate_placement" "line" "Line") s e
  destroy ⟨"demonstrate_placement::Point(10, 10)", "Point", .temporary⟩
  destroy ⟨"demonstrate_placement::Point(0, 0)", "Point", .temporary⟩
  put "Line contains 2 Point objects: size="; cout (.size (sizeofClass Line.members)); put " bytes"; endl
  put "  (2 Points Ã— "; cout (.size (sizeofClass Point.members)); put " bytes each)"; endl
  let _c ← Circle.ctor (automatic "demonstrate_placement" "c" "Circle") (Double.ofDecimal 50 1)
  endl; put "Abstract types require pointers/references"; endl
  put "  Circle object size: "; cout (.size (sizeofClass Circle.members)); put " bytes"; endl
  put "  Shape pointer size: "; cout (.size Member.pointer.size); put " bytes"; endl
  endl
  -- end of scope: c, line, p1, v1
  destroy (automatic "demonstrate_placement" "c" "Circle")
  destroy (automatic "demonstrate_placement" "line" "Line")
  destroy (automatic "demonstrate_placement" "p1" "Point")
  v1.dtor

/-- The function `demonstrate_direct_reference`. -/
def demonstrate_direct_reference : Run Unit := do
  put "=== 2. Direct Object Reference ==="; endl; endl
  let v ← Vector.ctor (automatic "demonstrate_direct_reference" "v" "Vector") 10
  v.operator_index_assign 0 (Double.ofDecimal 314 2)
  let p ← Point.ctor (automatic "demonstrate_direct_reference" "p" "Point") 5 5
  let _p : Point := { p with x := 10 }
  put "Concrete types: direct access without pointers"; endl
  put "  Vector v; v[0] = 3.14;  <- v is the actual object"; endl
  put "  Point p; p.x = 10;      <- p is the actual object"; endl
  let _c ← Circle.ctor (automatic "demonstrate_direct_reference" "c" "Circle") (Double.ofDecimal 50 1)
  endl; put "Abstract types: must use pointer/reference"; endl
  put "  Shape* s_ptr = &c;  <- need pointer"; endl
  put "  Shape& s_ref = c;   <- or reference"; endl
  endl
  -- end of scope: c, p, v
  destroy (automatic "demonstrate_direct_reference" "c" "Circle")
  destroy (automatic "demonstrate_direct_reference" "p" "Point")
  v.dtor

/-- The function `demonstrate_initialization`. -/
def demonstrate_initialization : Run Unit := do
  put "=== 3. Immediate and Complete Initialization ==="; endl; endl
  let v1 ← Vector.ctor (automatic "demonstrate_initialization" "v1" "Vector") 5
  let _p1 ← Point.ctor (automatic "demonstrate_initialization" "p1" "Point") 10 20
  put "Concrete types initialized completely:"; endl
  put "  Vector v(5);        <- fully ready to use"; endl
  put "  Point p(10, 20);    <- all members initialized"; endl
  -- Circle* c_ptr = new Circle(5.0);
  let _c ← Circle.ctor ⟨"demonstrate_initialization::*c_ptr", "Circle", .dynamic⟩ (Double.ofDecimal 50 1)
  endl; put "Abstract types need indirection:"; endl
  put "  Circle* c = new Circle(5.0);  <- heap allocation"; endl
  put "  Shape* s = c;                 <- indirect reference"; endl
  -- delete c_ptr;
  destroy ⟨"demonstrate_initialization::*c_ptr", "Circle", .dynamic⟩
  endl
  -- end of scope: p1, v1
  destroy (automatic "demonstrate_initialization" "p1" "Point")
  v1.dtor

/-- The values of the `Point` objects that are alive in a function, by object. -/
abbrev Locals := Obj → Option Point

/-- Give the object `o` the value `p`; every other object keeps its own. -/
def Locals.store (vars : Locals) (o : Obj) (p : Point) : Locals :=
  fun n => if n = o then some p else vars n

/-- The declaration `Point name(x, y);` of the object `this`. -/
def Point.declare (vars : Locals) (this : Obj) (x y : Int) : Run Locals := do
  let p ← Point.ctor this x y
  return vars.store this p

/-- The declaration `Point name = other;` of the object `this`: the implicit
copy constructor makes its value from the value of `other`. -/
def Point.declare_copy (vars : Locals) (this other : Obj) : Run Locals := do
  match vars other with
  | some q =>
    let p ← Point.ctor_copy this q
    return vars.store this p
  | none => throw RuntimeError.notAlive

/-- The statement `name = other;` on the object `this`. -/
def Point.copy_assign (vars : Locals) (this other : Obj) : Run Locals := do
  match vars this, vars other with
  | some p, some q => return vars.store this (p.assign q)
  | _, _ => throw RuntimeError.notAlive

/-- The statement `name.x = v;` on the object `this`. -/
def Point.assign_x (vars : Locals) (this : Obj) (v : Int) : Run Locals := do
  match vars this with
  | some p => return vars.store this { p with x := v }
  | none => throw RuntimeError.notAlive

/-- The expression `name.x` on the object `this`. -/
def Point.read_x (vars : Locals) (this : Obj) : Run Int := do
  match vars this with
  | some p => return p.x
  | none => throw RuntimeError.notAlive

/-- The function `demonstrate_copying`. -/
def demonstrate_copying : Run Unit := do
  put "=== 4. Copy Objects ==="; endl; endl
  let p1 := automatic "demonstrate_copying" "p1" "Point"
  let p2 := automatic "demonstrate_copying" "p2" "Point"
  let p3 := automatic "demonstrate_copying" "p3" "Point"
  let vars : Locals := fun _ => none
  let vars ← Point.declare vars p1 10 20
  let vars ← Point.declare_copy vars p2 p1
  let vars ← Point.declare vars p3 0 0
  let vars ← Point.copy_assign vars p3 p1
  put "Concrete types can be copied:"; endl
  put "  Point p2 = p1;  <- copy construction"; endl
  put "  p3 = p1;        <- copy assignment"; endl
  let vars ← Point.assign_x vars p2 99
  let p1_x ← Point.read_x vars p1
  let p2_x ← Point.read_x vars p2
  put "  After p2.x = 99: p1.x="; cout (.int p1_x); put ", p2.x="; cout (.int p2_x)
  put " (independent)"; endl
  let v1 ← Vector.ctor (automatic "demonstrate_copying" "v1" "Vector") 5
  v1.operator_index_assign 0 (Double.ofDecimal 314 2)
  let _c1 ← Circle.ctor (automatic "demonstrate_copying" "c1" "Circle") (Double.ofDecimal 50 1)
  endl; put "Abstract types can't be copied directly:"; endl
  put "  Shape s = circle;  <- ERROR (object slicing)"; endl
  endl
  -- end of scope: c1, v1, p3, p2, p1
  destroy (automatic "demonstrate_copying" "c1" "Circle")
  v1.dtor
  destroy p3
  destroy p2
  destroy p1

/-- The function `demonstrate_efficiency`. The array `points` is one object,
each of its 1000 elements made by `Point()`. -/
def demonstrate_efficiency : Run Unit := do
  put "=== Why Concrete Types Are Efficient ==="; endl; endl
  put "Memory layout comparison:"; endl
  put "  Concrete Vector: [elem_ptr][sz] <- 16 bytes on stack"; endl
  put "  Abstract Shape*: [vtable_ptr][derived_data] <- heap allocation needed"; endl
  endl
  put "Allocation comparison:"; endl
  let _p ← Point.ctor (automatic "demonstrate_efficiency" "p" "Point") 10 20
  put "  Point p(10,20);              <- stack (very fast)"; endl
  let _c ← Circle.ctor ⟨"demonstrate_efficiency::*c", "Circle", .dynamic⟩ (Double.ofDecimal 50 1)
  put "  Circle* c = new Circle(5);   <- heap (slower, fragmentation)"; endl
  destroy ⟨"demonstrate_efficiency::*c", "Circle", .dynamic⟩
  endl
  put "Array efficiency:"; endl
  let _points ← Point.ctor_default (automatic "demonstrate_efficiency" "points" "Point[1000]")
  put "  Point points[1000];          <- contiguous, cache-friendly"; endl
  put "  Shape* shapes[1000];         <- pointers, scattered data"; endl
  -- end of scope: points, p
  destroy (automatic "demonstrate_efficiency" "points" "Point[1000]")
  destroy (automatic "demonstrate_efficiency" "p" "Point")

/-- The function `main` of concrete_types.cpp. -/
def main : Run Int := do
  put "=== Concrete Types: Definition and Characteristics ==="; endl
  endl
  put "A CONCRETE TYPE has its representation in its definition."; endl
  put "Even if data is stored elsewhere (heap), the POINTER is in the object."; endl
  put "Compiler knows exact size at compile time."; endl
  endl
  demonstrate_placement
  demonstrate_direct_reference
  demonstrate_initialization
  demonstrate_copying
  demonstrate_efficiency
  put "=== Summary ==="; endl
  put "Concrete types allow:"; endl
  put "  1. Stack/static/embedded allocation (no heap required)"; endl
  put "  2. Direct object usage (no pointer indirection)"; endl
  put "  3. Complete initialization at construction time"; endl
  put "  4. Value semantics (copying works naturally)"; endl
  put "  5. Optimal efficiency (minimal overhead)"; endl
  return 0

end concrete_types

/-! ## brace_initialization.cpp -/

namespace brace_initialization

/-- The class `Data`. A member is `none` while it has not been given a value. -/
structure Data where
  value : Option Int
  ratio : Option Double
deriving DecidableEq, Repr

namespace Data

/-- The constructors of `Data`. -/
def ctors : List Ctor := [.regular [.int, .double], .initializerList .int, .copy]

/-- The constructor `Data(int v, double r) : value{v}, ratio{r}`. -/
def ctor_regular (this : Obj) (v : Int) (r : Double) : Run Data := do
  put "Constructor called: "; cout (.int v); put ", "; cout (.double r); endl
  construct this
  return ⟨some v, some r⟩

/-- The constructor `Data(std::initializer_list<int> list)`. -/
def ctor_list (this : Obj) (list : List Int) : Run Data := do
  put "Initializer list constructor with "; cout (.size list.length); put " elements"; endl
  let value ← if list.length > 0 then
      match list.get? 0 with
      | some v => pure (some v)
      | none => throw RuntimeError.outOfBounds
    else pure none
  let ratio ← if list.length > 1 then
      match list.get? 1 with
      | some v => pure (some (Double.ofInt v))
      | none => throw RuntimeError.outOfBounds
    else pure none
  construct this
  return ⟨value, ratio⟩

/-- The implicit copy constructor. -/
def ctor_copy (this : Obj) (other : Data) : Run Data := do
  construct this
  return other

/-- A declaration of a `Data` from values, with the given form. -/
def init (this : Obj) (form : InitForm) (args : List Value) : Run Data :=
  match selectConstructor "Data" ctors form (args.map Value.type) with
  | some (.initializerList _) =>
    match args.mapM Value.toInt? with
    | some list => ctor_list this list
    | none => throw RuntimeError.illFormed
  | some (.regular _) =>
    match args with
    | [v, r] =>
      match v.toInt?, r.toDouble? with
      | some v, some r => ctor_regular this v r
      | _, _ => throw RuntimeError.illFormed
    | _ => throw RuntimeError.illFormed
  | _ => throw RuntimeError.illFormed

/-- A declaration of a `Data` from one `Data`, with the given form. -/
def initFrom (this : Obj) (form : InitForm) (other : Data) : Run Data :=
  match selectConstructor "Data" ctors form [.classType "Data"] with
  | some .copy => ctor_copy this other
  | _ => throw RuntimeError.illFormed

end Data

/-- The function `demonstrate_types`. -/
def demonstrate_types : Run Unit := do
  put "=== Different Initialization Syntaxes ==="; endl; endl
  let b : Int := (Double.ofDecimal 314 2).toInt
  put "Copy init: int b = 3.14  ->  b = "; cout (.int b); put " (narrowing allowed)"; endl
  let d : Int := (Double.ofDecimal 314 2).toInt
  put "Direct init: int d(3.14)  ->  d = "; cout (.int d); put " (narrowing allowed)"; endl
  let e : Int := 5
  put "Brace init: int e\x7b5\x7d  ->  e = "; cout (.int e); put " (prevents narrowing)"; endl
  put "Brace init: int f\x7b3.14\x7d  ->  COMPILE ERROR (catches narrowing!)"; endl
  endl

/-- The function `demonstrate_compiler_behavior`. -/
def demonstrate_compiler_behavior : Run Unit := do
  put "=== How Compiler Handles \x7b\x7d ==="; endl; endl
  put "1. Class with regular constructor:"; endl
  let _d1 ← Data.init (automatic "demonstrate_compiler_behavior" "d1" "Data") .parens
    [.int 10, .double (Double.ofDecimal 314 2)]
  endl; put "2. Class with initializer_list constructor:"; endl
  let _d2 ← Data.init (automatic "demonstrate_compiler_behavior" "d2" "Data") .braces
    [.int 1, .int 2, .int 3]
  endl
  -- end of scope: d2, d1
  destroy (automatic "demonstrate_compiler_behavior" "d2" "Data")
  destroy (automatic "demonstrate_compiler_behavior" "d1" "Data")

/-- The aggregate `Point`. -/
structure Point where
  x : Int
  y : Int
deriving DecidableEq, Repr

/-- The aggregate `Line`. -/
structure Line where
  start : Point
  end_ : Point
deriving DecidableEq, Repr

/-- An initializer clause: an expression of type `int`, or a braced list of
clauses. -/
inductive Init
  | value (n : Int)
  | braces (items : List Init)

/-- Initialize an `int` member from the clauses that remain: the next clause
when it is an expression or a braced list of at most one expression, zero when
no clause remains. The clauses left over are returned. -/
def intMember : List Init → Option (Int × List Init)
  | [] => some (0, [])
  | .value n :: rest => some (n, rest)
  | .braces [] :: rest => some (0, rest)
  | .braces [.value n] :: rest => some (n, rest)
  | _ => none

/-- Aggregate initialization of the members of a `Point`, in declaration order. -/
def Point.members (clauses : List Init) : Option (Point × List Init) := do
  let (x, rest) ← intMember clauses
  let (y, rest) ← intMember rest
  return (⟨x, y⟩, rest)

/-- The declaration `Point p{clauses}`. -/
def Point.aggregate (clauses : List Init) : Option Point :=
  match Point.members clauses with
  | some (p, []) => some p
  | _ => none

/-- Initialize a `Point` member from the clauses that remain: from the next
clause when it is a braced list, and otherwise, the braces being omitted, from
as many clauses as a `Point` has members. -/
def pointMember : List Init → Option (Point × List Init)
  | .braces items :: rest => (Point.aggregate items).map (fun p => (p, rest))
  | clauses => Point.members clauses

/-- The declaration `Line line{clauses}`: `start`, then `end`. -/
def Line.aggregate (clauses : List Init) : Option Line :=
  match pointMember clauses with
  | some (start, rest) =>
    match pointMember rest with
    | some (end_, []) => some ⟨start, end_⟩
    | _ => none
  | none => none

/-- A declaration of an object of an aggregate class. -/
def declareAggregate (this : Obj) (init : Option α) : Run α :=
  match init with
  | some a => do construct this; return a
  | none => throw RuntimeError.illFormed

/-- The function `demonstrate_aggregate`. -/
def demonstrate_aggregate : Run Unit := do
  put "=== Aggregate Initialization with \x7b\x7d ==="; endl; endl
  let p ← declareAggregate (automatic "demonstrate_aggregate" "p" "Point")
    (Point.aggregate [.value 10, .value 20])
  put "Point p\x7b10, 20\x7d: ("; cout (.int p.x); put ", "; cout (.int p.y); put ")"; endl
  let line ← declareAggregate (automatic "demonstrate_aggregate" "line" "Line")
    (Line.aggregate [.braces [.value 0, .value 0], .braces [.value 10, .value 10]])
  put "Line\x7b\x7b0,0\x7d, \x7b10,10\x7d\x7d: start("; cout (.int line.start.x); put ","; cout (.int line.start.y)
  put ") end("; cout (.int line.end_.x); put ","; cout (.int line.end_.y); put ")"; endl
  let line2 ← declareAggregate (automatic "demonstrate_aggregate" "line2" "Line")
    (Line.aggregate [.value 0, .value 0, .value 10, .value 10])
  put "Line\x7b0,0,10,10\x7d: start("; cout (.int line2.start.x); put ","; cout (.int line2.start.y)
  put ") end("; cout (.int line2.end_.x); put ","; cout (.int line2.end_.y); put ")"; endl
  endl
  -- end of scope: line2, line, p
  destroy (automatic "demonstrate_aggregate" "line2" "Line")
  destroy (automatic "demonstrate_aggregate" "line" "Line")
  destroy (automatic "demonstrate_aggregate" "p" "Point")

/-- The function `demonstrate_narrowing`. -/
def demonstrate_narrowing : Run Unit := do
  put "=== Narrowing Conversion Prevention ==="; endl; endl
  put "int a\x7b5\x7d             -> OK"; endl
  put "int b\x7b5.5\x7d           -> COMPILE ERROR (narrowing)"; endl
  put "int e\x7bd\x7d where d=3.0 -> COMPILE ERROR (type mismatch)"; endl
  put "int f = d            -> WARNING but compiles (old style)"; endl
  endl

/-- The function `demonstrate_most_vexing_parse`. The temporary `Data(10, 3.14)`
lives until the end of the declaration of `d`. -/
def demonstrate_most_vexing_parse : Run Unit := do
  put "=== Solving 'Most Vexing Parse' ==="; endl; endl
  let tmp ← Data.init ⟨"demonstrate_most_vexing_parse::Data(10, 3.14)", "Data", .temporary⟩ .parens
    [.int 10, .double (Double.ofDecimal 314 2)]
  let _d ← Data.initFrom (automatic "demonstrate_most_vexing_parse" "d" "Data") .braces tmp
  destroy ⟨"demonstrate_most_vexing_parse::Data(10, 3.14)", "Data", .temporary⟩
  put "Data d\x7bData(10, 3.14)\x7d -> Clearly an object (not function decl)"; endl
  put "Data d(Data())         -> Parsed as function declaration!"; endl
  endl
  -- end of scope: d
  destroy (automatic "demonstrate_most_vexing_parse" "d" "Data")

/-- The function `main` of brace_initialization.cpp. -/
def main : Run Int := do
  demonstrate_types
  demonstrate_compiler_behavior
  demonstrate_aggregate
  demonstrate_narrowing
  demonstrate_most_vexing_parse
  put "=== Summary: How Compiler Handles \x7b\x7d ==="; endl; endl
  put "1. GRAMMAR: braced-init-list is a distinct syntactic form"; endl
  put "2. PARSING: Creates BracedInitList AST node"; endl
  put "3. SEMANTIC: Checks narrowing conversions (type safety)"; endl
  put "4. OVERLOAD: Prefers initializer_list constructor if exists"; endl
  put "5. FALLBACK: Uses matching constructor or aggregate init"; endl
  put "6. CODEGEN: Emits constructor call or direct initialization"; endl
  endl
  put "KEY: \x7b\x7d is 'uniform initialization' - same syntax for everything!"; endl
  return 0

end brace_initialization

/-! ## operator_grammar.cpp -/

namespace operator_grammar

/-- The member `Demo::operator+(int x)`: `return x + 100`. -/
def Demo.operator_plus (x : Int) : Int := wrapInt (x + 100)

/-- The functions named `operator+` that take a `Demo` on the left: the one
member of `Demo`. -/
def plusCandidates : List Candidate := [⟨true, .int⟩]

/-- The expression `d + x` (`form = operatorExpr`) or `d.operator+(x)`
(`form = memberCall`) for a `Demo` `d` and an `int` `x`. -/
def plus (form : CallForm) (x : Int) : Run Int :=
  match resolve form plusCandidates .int with
  | some _ => pure (Demo.operator_plus x)
  | none => throw RuntimeError.illFormed

/-- The function `demonstrate_mangling`. -/
def demonstrate_mangling : Run Unit := do
  put "=== Name Mangling for Operators ==="; endl; endl
  construct (automatic "demonstrate_mangling" "d" "Demo")
  put "Regular call: d + 5"; endl
  let result ← plus .operatorExpr 5
  put "Result: "; cout (.int result); endl; endl
  put "Explicit call: d.operator+(5)"; endl
  let result ← plus .memberCall 5
  put "Result: "; cout (.int result); endl; endl
  put "Both compile to the same machine code!"; endl
  -- end of scope: d
  destroy (automatic "demonstrate_mangling" "d" "Demo")

/-- The function `main` of operator_grammar.cpp. -/
def main : Run Int := do
  put "=== Compiler's View of 'operator' Keyword ==="; endl; endl
  put "Key Insights:"; endl
  put "1. 'operator' is a keyword that forms special function names"; endl
  put "2. 'operator+' is literally the NAME of the function"; endl
  put "3. Compiler transforms: a+b -> a.operator+(b)"; endl
  put "4. Name mangling encodes operator type for linker"; endl
  put "5. Operators are just functions with special calling syntax"; endl
  endl
  demonstrate_mangling
  return 0

end operator_grammar

/-! ## The repository as a whole -/

/-- The eleven programs of the repository, by source file. The assembly unit
that asm_interop_example.cpp is linked with is a parameter. -/
def programs (asm : asm_interop_example.AsmUnit) : List (String × Run Int) :=
  [ ("hello.cpp", hello.main),
    ("asm_interop_example.cpp", asm_interop_example.main asm),
    ("c_interop_example.cpp", c_interop_example.main),
    ("operator_keyword.cpp", operator_keyword.main),
    ("initializer_list.cpp", initializer_list.main),
    ("memory_visualization.cpp", memory_visualization.main),
    ("concrete_vs_abstract.cpp", concrete_vs_abstract.main),
    ("brace_init_compiler.cpp", brace_init_compiler.main),
    ("concrete_types.cpp", concrete_types.main),
    ("brace_initialization.cpp", brace_initialization.main),
    ("operator_grammar.cpp", operator_grammar.main) ]

/-- The demonstration functions: the functions that the `main`s call, by name. -/
def demonstrationFunctions : List (String × Run Unit) :=
  [ ("concrete_vs_abstract::show_memory_layout", concrete_vs_abstract.show_memory_layout),
    ("concrete_vs_abstract::show_abstract_type", concrete_vs_abstract.show_abstract_type),
    ("concrete_vs_abstract::show_four_benefits", concrete_vs_abstract.show_four_benefits),
    ("concrete_vs_abstract::show_efficiency", concrete_vs_abstract.show_efficiency),
    ("brace_init_compiler::show_overload_resolution", brace_init_compiler.show_overload_resolution),
    ("brace_init_compiler::show_narrowing_detection", brace_init_compiler.show_narrowing_detection),
    ("concrete_types::demonstrate_placement", concrete_types.demonstrate_placement),
    ("concrete_types::demonstrate_direct_reference", concrete_types.demonstrate_direct_reference),
    ("concrete_types::demonstrate_initialization", concrete_types.demonstrate_initialization),
    ("concrete_types::demonstrate_copying", concrete_types.demonstrate_copying),
    ("concrete_types::demonstrate_efficiency", concrete_types.demonstrate_efficiency),
    ("brace_initialization::demonstrate_types", brace_initialization.demonstrate_types),
    ("brace_initialization::demonstrate_compiler_behavior", brace_initialization.demonstrate_compiler_behavior),
    ("brace_initialization::demonstrate_aggregate", brace_initialization.demonstrate_aggregate),
    ("brace_initialization::demonstrate_narrowing", brace_initialization.demonstrate_narrowing),
    ("brace_initialization::demonstrate_most_vexing_parse", brace_initialization.demonstrate_most_vexing_parse),
    ("operator_grammar::demonstrate_mangling", operator_grammar.demonstrate_mangling) ]

/-- The objects a function has constructed that are still alive when it
returns, when it is called in the initial state (`none` when it fails). -/
def survivors (f : Run α) : Option (List Obj) :=
  match execute f with
  | .ok (_, w) => some (w.made.filter (fun o => o ∈ w.live))
  | .error _ => none

/-- The objects a function has constructed when it returns, when it is called in
the initial state (`none` when it fails). -/
def constructed (f : Run α) : Option (List Obj) :=
  match execute f with
  | .ok (_, w) => some w.made
  | .error _ => none

/-- The heap blocks that are still allocated when a function returns, when it
is called in the initial state (`none` when it fails). -/
def liveBlocks (f : Run α) : Option (List Block) :=
  match execute f with
  | .ok (_, w) => some w.heap
  | .error _ => none

/-- Every object a function has constructed and not destroyed when it returns
has static storage duration, and every heap block that is still allocated
belongs to such an object. -/
def onlyStaticsSurvive (f : Run α) : Bool :=
  match survivors f, liveBlocks f with
  | some objs, some blocks =>
    objs.all (fun o => o.storage == .static) &&
      blocks.all (fun b => objs.any (fun o => o.name == b.owner && o.storage == .static))
  | _, _ => false

/-- The line of a program that shows an address by a slip of the code (lines
are counted from `0`): line `6` of hello.cpp, written by the explicit member
call of "Solution 3", which the comment at hello.cpp:22 means to print the
characters of `text`. No other program has such a line. -/
def slipLine (program : String) : Option Nat :=
  if program = "hello.cpp" then some 6 else none

/-- The lines of a program without its slip line. -/
def dropSlip (program : String) (lines : List α) : List α :=
  match slipLine program with
  | some k => lines.eraseIdx k
  | none => lines

/-- The lines a program prints in a run with layout `L`, without its slip
line. -/
def designedOutput (L : Layout) (program : String) (p : Run α) : Option (List String) :=
  (output L p).map (dropSlip program)

/-- The objects whose addresses a program shows in its output, outside its slip
line. -/
def shownObjects (program : String) (p : Run α) : List String :=
  (dropSlip program ((template p).getD [])).flatMap lineObjects

/-- The objects, heap blocks and literals whose addresses some program prints
on purpose: the literal behind `ptr` in hello.cpp, the `Vector` `v` and its
elements in memory_visualization.cpp, the `Vector` `v` of `show_memory_layout`
and its elements in concrete_vs_abstract.cpp. -/
def printedAddresses : List String :=
  [ "hello.cpp:29 \"text\"", "main::v", "main::v.elem",
    "show_memory_layout::v", "show_memory_layout::v.elem" ]

/-- A program runs to its end without a runtime error. -/
def succeeds (p : Run α) : Bool :=
  match execute p with
  | .ok _ => true
  | .error _ => false

/-- The value that `main` returns, the exit status of the program (`none` when
the program fails). -/
def exitStatus (p : Run Int) : Option Int :=
  match execute p with
  | .ok (status, _) => some status
  | .error _ => none

/-- An assembly unit to run asm_interop_example.cpp with: a product and an
exchange. -/
def sampleAsm : asm_interop_example.AsmUnit := ⟨fun a b => a * b, fun xy => (xy.2, xy.1)⟩

/-- A layout of a run: the array `text` of hello.cpp on the stack, its four
string literals in the read-only data, the `Vector`s on the stack and their
elements on the heap; every other object at `0x10000`. -/
def sampleLayout : Layout := fun name =>
  ([ ("hello.cpp:12 \"text\"", 0x402010), ("hello.cpp:19 \"text\"", 0x402015),
     ("main::text", 0x7ffc1003), ("hello.cpp:29 \"text\"", 0x40201a),
     ("main::v", 0x7ffc2000), ("main::v.elem", 0x5555a2b0),
     ("show_memory_layout::v", 0x7ffc3000), ("show_memory_layout::v.elem", 0x5555a6c0)
   ].lookup name).getD 0x10000

/-- The layout `L` with the object `name` moved to `addr`. -/
def relocate (L : Layout) (name : String) (addr : Nat) : Layout :=
  fun n => if n = name then addr else L n

/-! ## The arithmetic mean, as the specification words it -/

/-- The sum `array[0] + ... + array[n-1]` in `double` arithmetic, added up in
index order: the sum of no elements is `0.0`, the sum of the first `n + 1`
elements is the sum of the first `n` plus `array[n]`. An index outside the
array contributes nothing. -/
def indexOrderSum (array : List Double) : Nat → Double
  | 0 => Double.zero
  | n + 1 =>
    match array.get? n with
    | some x => Double.add (indexOrderSum array n) x
    | none => indexOrderSum array n

/-- The expression `(array[0] + ... + array[n-1]) / n` in `double` arithmetic. -/
def arithmeticMean (array : List Double) (n : Nat) : Double :=
  Double.div (indexOrderSum array n) (Double.ofInt n)

/-- The sum of the first `n` elements as a rational number, when all of them
are finite. -/
def exactSum (array : List Double) (n : Nat) : Option ℚ :=
  if (array.take n).all (fun x => x.toRat.isSome) then
    some ((array.take n).filterMap Double.toRat).sum
  else none

/-- The arithmetic mean of the first `n` elements as a rational number: their
sum divided by `n`, without any rounding. -/
def exactMean (array : List Double) (n : Nat) : Option ℚ :=
  (exactSum array n).map (· / (n : ℚ))

/-- The addition `x + y` is exact: the operands and the result are finite and
the result stands for the sum of the operands. -/
def Double.addExact (x y : Double) : Bool :=
  match x.toRat, y.toRat, (Double.add x y).toRat with
  | some a, some b, some c => decide (c = a + b)
  | _, _, _ => false

/-- The division `x / n` by an integer is exact: the conversion of `n` to
`double` is, `x` and the result are finite and the result stands for the
quotient. -/
def Double.divExact (x : Double) (n : Int) : Bool :=
  match x.toRat, (Double.ofInt n).toRat, (Double.div x (Double.ofInt n)).toRat with
  | some a, some b, some c => decide (b = (n : ℚ)) && decide (c = a / b)
  | _, _, _ => false

/-- Every addition of `array[0] + ... + array[n-1]` in index order is exact. -/
def roundingFreeSum (array : List Double) : Nat → Bool
  | 0 => true
  | n + 1 =>
    roundingFreeSum array n &&
      match array.get? n with
      | some x => Double.addExact (indexOrderSum array n) x
      | none => false

/-- No operation of `(array[0] + ... + array[n-1]) / n` rounds, overflows or
meets a value that is not finite. -/
def roundingFree (array : List Double) (n : Nat) : Bool :=
  roundingFreeSum array n && Double.divExact (indexOrderSum array n) n

/-! # Theorems -/

/-! ## Output and addresses -/

/-- The characters of a line depend on the layout only through the objects the
line shows. -/
theorem renderLine_congr (L₁ L₂ : Layout) (line : List Chunk)
    (h : ∀ name ∈ lineObjects line, L₁ name = L₂ name) :
    renderLine L₁ line = renderLine L₂ line := by
  unfold renderLine
  congr 1
  apply List.map_congr_left
  intro c hc
  have hsub : ∀ name ∈ lineObjects [c], L₁ name = L₂ name := by
    intro name hn
    apply h
    simp only [lineObjects, List.mem_flatMap] at hn ⊢
    obtain ⟨c', hc', hn'⟩ := hn
    have : c' = c := by simpa using hc'
    exact ⟨c, hc, this ▸ hn'⟩
  cases c with
  | text s => rfl
  | pointer a =>
    have ha := hsub a.object (by simp [lineObjects])
    simp only [Chunk.render, Address.resolve, ha]
  | distance a b =>
    have ha := hsub a.object (by simp [lineObjects])
    have hb := hsub b.object (by simp [lineObjects])
    simp only [Chunk.render, Address.resolve, ha, hb]

/-- Erasing a line commutes with rendering the lines. -/
theorem eraseIdx_map (f : α → β) :
    ∀ (l : List α) (k : Nat), (l.map f).eraseIdx k = (l.eraseIdx k).map f
  | [], _ => rfl
  | _ :: _, 0 => rfl
  | a :: l, k + 1 => by
    simp only [List.map_cons, List.eraseIdx_cons_succ, eraseIdx_map f l k]

/-- Leaving the slip line out commutes with rendering the lines. -/
theorem dropSlip_map (program : String) (f : α → β) (l : List α) :
    dropSlip program (l.map f) = (dropSlip program l).map f := by
  unfold dropSlip
  cases slipLine program with
  | none => rfl
  | some k => exact eraseIdx_map f l k

/-- The output of a program, without its slip line, depends on the layout only
through the objects whose addresses the program shows outside that line. -/
theorem designedOutput_congr (L₁ L₂ : Layout) (program : String) (p : Run α)
    (h : ∀ name ∈ shownObjects program p, L₁ name = L₂ name) :
    designedOutput L₁ program p = designedOutput L₂ program p := by
  unfold designedOutput output
  unfold shownObjects at h
  cases ht : template p with
  | none => rfl
  | some lines =>
    simp only [Option.map_some', Option.some.injEq, dropSlip_map]
    apply List.map_congr_left
    intro line hline
    apply renderLine_congr
    intro name hn
    apply h
    rw [ht]
    simp only [Option.getD_some, List.mem_flatMap]
    exact ⟨line, hline, hn⟩

set_option maxHeartbeats 1000000 in
/-- Inserting an `int` writes its decimal digits. -/
theorem cout_int (n : Int) : cout (.int n) = put (showInt n) := by
  rfl

set_option maxHeartbeats 1000000 in
/-- Inserting a `long` writes its decimal digits. -/
theorem cout_long (n : Int) : cout (.long n) = put (showInt n) := by
  rfl

/-- The lines of asm_interop_example.cpp, whatever `asm_multiply` and `asm_swap`
do. -/
theorem asm_interop_example.template_eq (asm : asm_interop_example.AsmUnit) :
    template (asm_interop_example.main asm) = some
      [ [.text "=== C++ and Assembly Interoperability Example ==="], [],
        [.text "Assembly asm_add(15, 25) = 40"],
        [.text ("Assembly asm_multiply(123456, 789) = " ++ showInt (asm.asm_multiply 123456 789))],
        [],
        [.text "Before swap: x=100, y=200"],
        [.text ("After swap: x=" ++ showInt (asm.asm_swap (100, 200)).1 ++ ", y="
          ++ showInt (asm.asm_swap (100, 200)).2)],
        [],
        [.text "Zero overhead: direct register usage, no conversions!"] ] := by
  simp only [asm_interop_example.main, cout_int, cout_long]
  rfl

/-- Every address a program shows outside its slip line is one of the five
printed addresses. -/
theorem shownObjects_subset (asm : asm_interop_example.AsmUnit) :
    ∀ p ∈ programs asm, ∀ name ∈ shownObjects p.1 p.2, name ∈ printedAddresses := by
  have hasm : shownObjects "asm_interop_example.cpp" (asm_interop_example.main asm) = [] := by
    unfold shownObjects
    rw [asm_interop_example.template_eq asm]
    rfl
  intro p hp
  simp only [programs, List.mem_cons, List.mem_singleton, List.not_mem_nil, or_false] at hp
  rcases hp with rfl | rfl | rfl | rfl | rfl | rfl | rfl | rfl | rfl | rfl | rfl
  · decide
  · intro name hn
    rw [hasm] at hn
    exact absurd hn (List.not_mem_nil name)
  all_goals decide

/-- C1, as stated, fails: two runs of hello.cpp that differ only in the address
of the string literal behind `ptr` (`0x40201a` against `0x56301a`, every other
object where it was, the array `text` included) print different text. Line 8
reads "Void* overload (hex address): 0x40201a" in the one and
"Void* overload (hex address): 0x56301a" in the other; the outputs also differ
with the line of "Solution 3" left out. -/
theorem hello_output_differs_with_addresses :
    (∀ name, name ≠ "hello.cpp:29 \"text\"" →
      relocate sampleLayout "hello.cpp:29 \"text\"" 0x56301a name = sampleLayout name) ∧
    output sampleLayout hello.main
      ≠ output (relocate sampleLayout "hello.cpp:29 \"text\"" 0x56301a) hello.main ∧
    (output sampleLayout hello.main).bind (fun lines => lines.get? 8)
      = some "Void* overload (hex address): 0x40201a" ∧
    (output (relocate sampleLayout "hello.cpp:29 \"text\"" 0x56301a) hello.main).bind
        (fun lines => lines.get? 8)
      = some "Void* overload (hex address): 0x56301a" ∧
    designedOutput sampleLayout "hello.cpp" hello.main
      ≠ designedOutput (relocate sampleLayout "hello.cpp:29 \"text\"" 0x56301a) "hello.cpp"
          hello.main := by
  refine ⟨?_, by decide, by decide, by decide, by decide⟩
  intro name hname
  simp [relocate, hname]

/-- C1, amended: the output of every program is fixed by the addresses it
prints on purpose. Two runs, linked with the same assembly unit, whose layouts
agree on the five printed addresses print the same text, program by program,
every other address being free to differ; for hello.cpp this is said of its
lines other than the line of "Solution 3", of which nothing is said. -/
theorem output_fixed_by_printed_addresses (asm : asm_interop_example.AsmUnit)
    (L₁ L₂ : Layout) (haddr : ∀ name ∈ printedAddresses, L₁ name = L₂ name) :
    (∀ p ∈ programs asm, designedOutput L₁ p.1 p.2 = designedOutput L₂ p.1 p.2) ∧
    (∀ p ∈ programs asm, p.1 ≠ "hello.cpp" → output L₁ p.2 = output L₂ p.2) := by
  have hall : ∀ p ∈ programs asm, designedOutput L₁ p.1 p.2 = designedOutput L₂ p.1 p.2 := by
    intro p hp
    apply designedOutput_congr
    intro name hn
    exact haddr name (shownObjects_subset asm p hp name hn)
  refine ⟨hall, ?_⟩
  intro p hp hne
  have h := hall p hp
  have hslip : slipLine p.1 = none := by
    unfold slipLine
    rw [if_neg hne]
  unfold designedOutput dropSlip at h
  rw [hslip] at h
  simpa using h

/-- C1, amended, at two layouts that agree on the five printed addresses and
differ in the address of the array `text` and of the first string literal of
hello.cpp, for the program hello.cpp. -/
theorem output_fixed_by_printed_addresses_witness :
    (∀ name ∈ printedAddresses,
      sampleLayout name
        = relocate (relocate sampleLayout "main::text" 0x7ffd8003)
            "hello.cpp:12 \"text\"" 0x563010 name) ∧
    sampleLayout "main::text"
      ≠ relocate (relocate sampleLayout "main::text" 0x7ffd8003)
          "hello.cpp:12 \"text\"" 0x563010 "main::text" ∧
    designedOutput sampleLayout "hello.cpp" hello.main
      = designedOutput (relocate (relocate sampleLayout "main::text" 0x7ffd8003)
          "hello.cpp:12 \"text\"" 0x563010) "hello.cpp" hello.main :=
  ⟨by decide, by decide,
   (output_fixed_by_printed_addresses sampleAsm sampleLayout
     (relocate (relocate sampleLayout "main::text" 0x7ffd8003) "hello.cpp:12 \"text\"" 0x563010)
     (by decide)).1 ("hello.cpp", hello.main) (by simp [programs])⟩

/-! ## hello.cpp: the explicit member call -/

/-- C2: the explicit member call `std::cout.operator<<(&text[0])` of "Solution
3" does not print `text`. Among the members of `std::ostream` the best match for
a `const char*` is `operator<<(const void*)` (the inserter for `const char*` is
not a member), so line 7 of the output is the label followed by the address of
the array `text`: with the array at `0x7ffc1000` it reads
"Solution 3 - Explicit operator<< call: 0x7ffc1000". The operator expression of
the last line does print `text`. -/
theorem hello_solution3_prints_address :
    resolve .memberCall ostreamInserters .constCharPtr = some ⟨true, .constVoidPtr⟩ ∧
    resolve .operatorExpr ostreamInserters .constCharPtr = some ⟨false, .constCharPtr⟩ ∧
    ((template hello.main).getD []).get? 6
      = some [.text "Solution 3 - Explicit operator<< call: ", .pointer ⟨"main::text", 0⟩] ∧
    ((output (fun _ => 0x7ffc1000) hello.main).getD []).get? 6
      = some "Solution 3 - Explicit operator<< call: 0x7ffc1000" ∧
    printsLine hello.main "Text value using normal <<: text" := by
  decide

/-! ## asm_interop_example.cpp -/

/-- C3: `asm_add(15, 25)` returns `40`, and whatever the rest of the assembly
unit does the program prints the line "Assembly asm_add(15, 25) = 40". -/
theorem asm_add_15_25 (asm : asm_interop_example.AsmUnit) :
    asm_interop_example.asm_add 15 25 = 40 ∧
    printsLine (asm_interop_example.main asm) "Assembly asm_add(15, 25) = 40" := by
  refine ⟨by decide, ?_⟩
  unfold printsLine
  rw [asm_interop_example.template_eq asm]
  have hline : textLine "Assembly asm_add(15, 25) = 40"
      = [.text "Assembly asm_add(15, 25) = 40"] := by decide
  rw [hline]
  simp

/-! ## No runtime error -/

/-- A program succeeds exactly when it has an output. -/
theorem succeeds_eq_isSome (p : Run α) : succeeds p = (template p).isSome := by
  unfold succeeds template
  cases execute p with
  | error e => rfl
  | ok r => rfl

/-- The guarded operations do fail on other arguments than the programs give
them: `calculate_average` on `size = 0` divides by zero and on a `size` above
the length of the array reads outside it, and the initializer-list constructor
of `Example` reads outside an empty list. -/
theorem guarded_operations_can_fail :
    c_functions.calculate_average [] 0 = .error .divisionByZero ∧
    c_functions.calculate_average [Double.ofDecimal 15 1] 2 = .error .outOfBounds ∧
    execute (brace_init_compiler.Example.ctor_list (automatic "f" "e" "Example") [])
      = .error .outOfBounds := by
  refine ⟨by rfl, by rfl, by rfl⟩

/-- C4: no program has a runtime error path. Whatever assembly unit is linked
in, each of the eleven `main`s runs to its `return`: without a division by zero,
without a read outside an array or an initializer list, and without any other
failure. The calls that could fail are `calculate_average(numbers, 5)` on the
five-element array `numbers`, `Example e1{1, 2}` and `Data d2{1, 2, 3}`. -/
theorem no_runtime_error (asm : asm_interop_example.AsmUnit) :
    ∀ p ∈ programs asm, succeeds p.2 = true := by
  intro p hp
  simp only [programs, List.mem_cons, List.mem_singleton, List.not_mem_nil, or_false] at hp
  rcases hp with rfl | rfl | rfl | rfl | rfl | rfl | rfl | rfl | rfl | rfl | rfl
  · decide
  · rw [succeeds_eq_isSome]
    show (template (asm_interop_example.main asm)).isSome = true
    rw [asm_interop_example.template_eq asm]
    rfl
  all_goals decide

/-- C4 at the program that calls `calculate_average`. -/
theorem no_runtime_error_witness : succeeds c_interop_example.main = true :=
  no_runtime_error sampleAsm ("c_interop_example.cpp", c_interop_example.main)
    (by simp [programs])

/-! ## Lifetimes -/

/-- C5, as stated, fails: when `demonstrate_placement` returns, two of the eight
objects it has constructed are still alive, the function-local statics `p2` and
`v2`, and so is the array of three `double`s that the constructor of `v2` has
allocated. -/
theorem demonstrate_placement_leaves_statics :
    (constructed concrete_types.demonstrate_placement).map List.length = some 8 ∧
    survivors concrete_types.demonstrate_placement = some
      [ ⟨"demonstrate_placement::p2", "Point", .static⟩,
        ⟨"demonstrate_placement::v2", "Vector", .static⟩ ] ∧
    liveBlocks concrete_types.demonstrate_placement = some
      [ ⟨"demonstrate_placement::v2", [none, none, none]⟩ ] := by
  decide

/-- C5, amended: when a demonstration function returns, every object it has
constructed has been destroyed and every heap block it has allocated has been
freed, except its function-local static objects and the heap blocks they own.
Only `demonstrate_placement` has such objects: it leaves `p2`, `v2` and the
array of `v2`; every other demonstration function leaves no object alive and no
heap block allocated. -/
theorem only_statics_outlive_their_function :
    demonstrationFunctions.all (fun f => onlyStaticsSurvive f.2) = true ∧
    (demonstrationFunctions.filter
        (fun f => survivors f.2 != some [] || liveBlocks f.2 != some [])).map Prod.fst
      = ["concrete_types::demonstrate_placement"] ∧
    demonstrationFunctions.map (fun f => (constructed f.2).map List.length)
      = [some 1, some 2, some 0, some 0, some 2, some 0, some 8, some 3, some 3, some 5, some 3,
         some 0, some 2, some 3, some 0, some 2, some 1] := by
  decide

/-! ## operator_keyword.cpp -/

/-- An `int` value is not changed by the wrap-around. -/
theorem wrapInt_of_isInt (n : Int) (h : isInt n) : wrapInt n = n := by
  unfold isInt INT_MIN INT_MAX at h
  unfold wrapInt
  omega

/-- C6: for `Number`s whose sum fits an `int`, `a + b` holds the sum of the two
values, and the explicit call `a.operator+(b)` is the same call as `a + b`: both
resolve to the member `Number::operator+`. The program prints
"a + b = 30  (calls a.operator+(b))" for 10 and 20 and
"e.operator+(f) = 80  (explicit call)" for 50 and 30. -/
theorem number_plus (a b : operator_keyword.Number) (h : isInt (a.value + b.value)) :
    (a.operator_plus b).getValue = a.getValue + b.getValue ∧
    operator_keyword.plus .operatorExpr a b = pure (a.operator_plus b) ∧
    operator_keyword.plus .memberCall a b = operator_keyword.plus .operatorExpr a b ∧
    printsLine operator_keyword.main "a + b = 30  (calls a.operator+(b))" ∧
    printsLine operator_keyword.main "e.operator+(f) = 80  (explicit call)" := by
  refine ⟨?_, rfl, rfl, by decide, by decide⟩
  simp only [operator_keyword.Number.operator_plus, operator_keyword.Number.getValue]
  exact wrapInt_of_isInt _ h

/-- C6 at the values of the program, 10 and 20. -/
theorem number_plus_witness :
    isInt ((⟨10⟩ : operator_keyword.Number).value + (⟨20⟩ : operator_keyword.Number).value) ∧
    ((⟨10⟩ : operator_keyword.Number).operator_plus ⟨20⟩).getValue = 10 + 20 :=
  ⟨by decide, (number_plus ⟨10⟩ ⟨20⟩ (by decide)).1⟩

/-- C7: for a `Number` `d` that holds `v`, with `v` below `INT_MAX`, the
increment `++d` leaves `d` holding `v + 1` and returns (a reference to) that
`Number`, while `d++` leaves `d` holding `v + 1` and returns a `Number` holding
the old `v`. Starting from 100 the program prints, on consecutive lines,
"++d = 101", "d++ = 101" and "d now = 102" (with the remarks that follow the
first two). -/
theorem number_increment (d : operator_keyword.Number) (hint : isInt d.value)
    (hmax : d.value < INT_MAX) :
    d.operator_inc = (⟨d.value + 1⟩, ⟨d.value + 1⟩) ∧
    d.operator_inc_int = (⟨d.value + 1⟩, ⟨d.value⟩) ∧
    printsLinesAt operator_keyword.main 9
      [ "++d = 101  (calls d.operator++())",
        "d++ = 101  (calls d.operator++(0), dummy int)",
        "d now = 102" ] := by
  have hw : wrapInt (d.value + 1) = d.value + 1 := by
    apply wrapInt_of_isInt
    unfold isInt INT_MIN INT_MAX at *
    omega
  refine ⟨?_, ?_, by decide⟩
  · simp only [operator_keyword.Number.operator_inc, hw]
  · simp only [operator_keyword.Number.operator_inc_int, hw]

/-- C7 at the value of the program, 100. -/
theorem number_increment_witness :
    isInt (⟨100⟩ : operator_keyword.Number).value ∧
    (⟨100⟩ : operator_keyword.Number).value < INT_MAX ∧
    (⟨100⟩ : operator_keyword.Number).operator_inc = (⟨101⟩, ⟨101⟩) ∧
    (⟨101⟩ : operator_keyword.Number).operator_inc_int = (⟨102⟩, ⟨101⟩) :=
  ⟨by decide, by decide, (number_increment ⟨100⟩ (by decide) (by decide)).1,
   (number_increment ⟨101⟩ (by decide) (by decide)).2.1⟩

/-! ## c_functions.c: the average -/

/-- The loop of `calculate_average`, started at index `i` with the sum of the
first `i` elements, ends at index `size` with the sum of the first `size`
elements, when the array has `size` elements or more and the budget exceeds the
`size - i` iterations that remain. -/
theorem c_functions.calculate_average_loop_spec (array : List Double) (size : Int)
    (hsize : size ≤ INT_MAX) (hlen : size.toNat ≤ array.length) :
    ∀ (n : Nat) (i : Int) (fuel : Nat), 0 ≤ i → i ≤ size → (size - i).toNat = n → n < fuel →
      c_functions.calculate_average_loop array size fuel i (indexOrderSum array i.toNat)
        = .ok (size, indexOrderSum array size.toNat) := by
  unfold INT_MAX at hsize
  intro n
  induction n with
  | zero =>
    intro i fuel hi his hn hf
    obtain ⟨f, rfl⟩ : ∃ f, fuel = f + 1 := ⟨fuel - 1, by omega⟩
    have hi_eq : i = size := by omega
    subst hi_eq
    simp [c_functions.calculate_average_loop]
  | succ n ih =>
    intro i fuel hi his hn hf
    obtain ⟨f, rfl⟩ : ∃ f, fuel = f + 1 := ⟨fuel - 1, by omega⟩
    have hlt : i < size := by omega
    have hidx : i.toNat < array.length := by omega
    obtain ⟨x, hx⟩ : ∃ x, array.get? i.toNat = some x :=
      ⟨array.get ⟨_, hidx⟩, List.get?_eq_get hidx⟩
    have hwrap : wrapInt (i + 1) = i + 1 :=
      wrapInt_of_isInt _ (by unfold isInt INT_MIN INT_MAX; omega)
    have hnext : indexOrderSum array (i + 1).toNat
        = Double.add (indexOrderSum array i.toNat) x := by
      have hsucc : (i + 1).toNat = i.toNat + 1 := by omega
      rw [hsucc]
      simp only [indexOrderSum, hx]
    rw [c_functions.calculate_average_loop]
    simp only [hlt, if_true, hi, hx, hwrap]
    rw [← hnext]
    exact ih (i + 1) f (by omega) (by omega) (by omega) (by omega)

/-- The arithmetic of `Double` at values where binary64 is known: `0.1 + 0.2`
is `0x1.3333333333334p-2` and `1.0 / 3.0` is `0x1.5555555555555p-2`; a zero sum
is `+0.0` unless both operands are `-0.0`; a zero quotient has the sign of the
operands; `x / 0.0` is an infinity, `0.0 / 0.0` and `inf - inf` are NaN, which
every operation hands on. -/
theorem Double.arithmetic_examples :
    Double.add (Double.ofDecimal 1 1) (Double.ofDecimal 2 1)
      = .finite false 1351079888211149 (-52) ∧
    Double.div (Double.ofInt 1) (Double.ofInt 3) = .finite false 6004799503160661 (-54) ∧
    Double.add (Double.ofInt 1) (Double.ofInt (-1)) = .finite false 0 0 ∧
    Double.add (.finite true 0 0) (.finite false 0 0) = .finite false 0 0 ∧
    Double.add (.finite true 0 0) (.finite true 0 0) = .finite true 0 0 ∧
    Double.div (.finite false 0 0) (Double.ofInt (-3)) = .finite true 0 0 ∧
    Double.div (Double.ofInt 1) (.finite false 0 0) = .infinite false ∧
    Double.div (Double.ofInt 1) (.finite true 0 0) = .infinite true ∧
    Double.div (Double.ofInt (-1)) (.finite false 0 0) = .infinite true ∧
    Double.div (.finite false 0 0) (.finite false 0 0) = .nan ∧
    Double.add (.infinite false) (.infinite true) = .nan ∧
    Double.add (.infinite false) (Double.ofInt (-1)) = .infinite false ∧
    Double.div (.infinite true) (Double.ofInt 2) = .infinite true ∧
    Double.div (Double.ofInt 1) (.infinite true) = .finite true 0 0 ∧
    Double.add .nan (Double.ofInt 1) = .nan ∧
    Double.div (Double.ofInt 1) .nan = .nan := by
  decide

/-- The arithmetic of `Double` at the ends of the range. With `max` the largest
finite value, `(2 ^ 53 - 1) * 2 ^ 971`: `max + max` and `max + 2 ^ 970` (half a
unit in the last place, a tie) overflow to `inf` and `max + 2 ^ 969` is `max`.
With `min` the smallest subnormal number, `2 ^ (-1074)`: `min / 2` is a tie and
rounds to `0.0`, `3 * min / 2` and `5 * min / 2` are ties and round to
`2 * min`, and `2 ^ (-1022) / 3` is the subnormal number
`1501199875790165 * min`. -/
theorem Double.range_examples :
    Double.add (.finite false (2 ^ 53 - 1) 971) (.finite false (2 ^ 53 - 1) 971)
      = .infinite false ∧
    Double.add (.finite false (2 ^ 53 - 1) 971) (.finite false 1 970) = .infinite false ∧
    Double.add (.finite false (2 ^ 53 - 1) 971) (.finite false 1 969)
      = .finite false (2 ^ 53 - 1) 971 ∧
    Double.add (.finite true (2 ^ 53 - 1) 971) (.finite true (2 ^ 53 - 1) 971)
      = .infinite true ∧
    Double.div (.finite false 1 (-1074)) (Double.ofInt 2) = .finite false 0 0 ∧
    Double.div (.finite false 3 (-1074)) (Double.ofInt 2) = .finite false 1 (-1073) ∧
    Double.div (.finite false 5 (-1074)) (Double.ofInt 2) = .finite false 1 (-1073) ∧
    Double.div (.finite true 1 (-1074)) (Double.ofInt 2) = .finite true 0 0 ∧
    Double.div (.finite false 1 (-1022)) (Double.ofInt 3)
      = .finite false 1501199875790165 (-1074) := by
  decide!

/-- An exact addition adds the rational values of its operands. -/
theorem Double.addExact_spec {x y : Double} (h : Double.addExact x y = true) :
    ∃ a b, x.toRat = some a ∧ y.toRat = some b ∧ (Double.add x y).toRat = some (a + b) := by
  unfold Double.addExact at h
  split at h
  · next a b c ha hb hc => exact ⟨a, b, ha, hb, by rw [hc, of_decide_eq_true h]⟩
  · exact absurd h (by simp)

/-- An exact division by `n` divides the rational value of its operand by `n`. -/
theorem Double.divExact_spec {x : Double} {n : Int} (h : Double.divExact x n = true) :
    ∃ a, x.toRat = some a ∧ (Double.div x (Double.ofInt n)).toRat = some (a / (n : ℚ)) := by
  unfold Double.divExact at h
  split at h
  · next a b c ha hb hc =>
    rw [Bool.and_eq_true] at h
    have hbn : b = (n : ℚ) := of_decide_eq_true h.1
    exact ⟨a, ha, by rw [hc, of_decide_eq_true h.2, hbn]⟩
  · exact absurd h (by simp)

/-- The exact sum of the first `n + 1` elements is the exact sum of the first
`n` plus the value of `array[n]`. -/
theorem exactSum_succ (array : List Double) (n : Nat) (x : Double) (s b : ℚ)
    (hx : array.get? n = some x) (hs : exactSum array n = some s) (hb : x.toRat = some b) :
    exactSum array (n + 1) = some (s + b) := by
  have hx2 : array[n]? = some x := by rw [← List.get?_eq_getElem?]; exact hx
  unfold exactSum at hs ⊢
  rw [List.take_succ, hx2]
  split at hs
  · next hall =>
    have hs2 := Option.some.inj hs
    simp only [Option.toList_some, List.all_append, hall, List.all_cons, hb, Option.isSome_some,
      List.all_nil, Bool.and_self, if_true, List.filterMap_append, List.sum_append, hs2,
      List.filterMap_cons, List.filterMap_nil, List.sum_cons, List.sum_nil, add_zero]
  · exact absurd hs (by simp)

/-- When no addition rounds, the sum in `double` arithmetic stands for the
exact sum. -/
theorem indexOrderSum_exact (array : List Double) :
    ∀ n, roundingFreeSum array n = true →
      ∃ s, (indexOrderSum array n).toRat = some s ∧ exactSum array n = some s := by
  intro n
  induction n with
  | zero =>
    intro _
    exact ⟨0, by simp [indexOrderSum, Double.zero, Double.toRat, Double.signed], by rfl⟩
  | succ n ih =>
    intro h
    rw [roundingFreeSum, Bool.and_eq_true] at h
    obtain ⟨h1, h2⟩ := h
    obtain ⟨s, hs1, hs2⟩ := ih h1
    cases hx : array.get? n with
    | none => rw [hx] at h2; exact absurd h2 (by simp)
    | some x =>
      rw [hx] at h2
      obtain ⟨a, b, ha, hb, hab⟩ := Double.addExact_spec h2
      have hsa : s = a := Option.some.inj (hs1.symm.trans ha)
      subst hsa
      refine ⟨s + b, ?_, exactSum_succ array n x s b hx hs2 hb⟩
      rw [indexOrderSum, hx]
      exact hab

/-- C8, as amended: for an array of `size >= 1` elements (or more)
`calculate_average` returns the value of `(array[0] + ... + array[size-1]) / size`
in `double` arithmetic, the sum added up in index order from `0.0`; the loop
needs `size` iterations, so every budget above `size` gives this result. The
elements may be any `double`s, NaN and the infinities included. When no
operation of the expression rounds, the result stands for the arithmetic mean
of the elements, their exact sum divided by `size`. For
`{1.5, 2.5, 3.5, 4.5, 5.5}` and `size = 5` the function returns `3.5`, which is
the arithmetic mean `7/2` and is what the program prints. -/
theorem calculate_average_is_mean (array : List Double) (size : Int) (hpos : 1 ≤ size)
    (hsize : size ≤ INT_MAX) (hlen : size.toNat ≤ array.length) :
    (∀ fuel, size.toNat < fuel → c_functions.calculate_average_fuel fuel array size
      = .ok (arithmeticMean array size.toNat)) ∧
    c_functions.calculate_average array size = .ok (arithmeticMean array size.toNat) ∧
    (roundingFree array size.toNat = true →
      ∃ d mean, c_functions.calculate_average array size = .ok d ∧
        d.toRat = some mean ∧ exactMean array size.toNat = some mean) ∧
    c_functions.calculate_average
        [Double.ofDecimal 15 1, Double.ofDecimal 25 1, Double.ofDecimal 35 1,
         Double.ofDecimal 45 1, Double.ofDecimal 55 1] 5 = .ok (Double.ofDecimal 35 1) ∧
    (Double.ofDecimal 35 1).toRat = some (7 / 2) ∧
    exactMean
        [Double.ofDecimal 15 1, Double.ofDecimal 25 1, Double.ofDecimal 35 1,
         Double.ofDecimal 45 1, Double.ofDecimal 55 1] 5 = some (7 / 2) ∧
    printsLine c_interop_example.main "C function calculate_average() = 3.5" := by
  have hfuel : ∀ fuel, size.toNat < fuel → c_functions.calculate_average_fuel fuel array size
      = .ok (arithmeticMean array size.toNat) := by
    intro fuel hf
    have hloop := c_functions.calculate_average_loop_spec array size hsize hlen
      size.toNat 0 fuel (by omega) (by omega) (by simp) hf
    have hzero : indexOrderSum array (0 : Int).toNat = Double.zero := rfl
    rw [hzero] at hloop
    have hne : size ≠ 0 := by omega
    have hcast : ((size.toNat : Nat) : Int) = size := Int.toNat_of_nonneg (by omega)
    unfold c_functions.calculate_average_fuel
    rw [hloop]
    simp only [hne, if_false, arithmeticMean, hcast]
  have hrun := hfuel (size.toNat + 1) (by omega)
  have hnums : [Double.ofDecimal 15 1, Double.ofDecimal 25 1, Double.ofDecimal 35 1,
      Double.ofDecimal 45 1, Double.ofDecimal 55 1]
      = [.finite false 3 (-1), .finite false 5 (-1), .finite false 7 (-1),
         .finite false 9 (-1), .finite false 11 (-1)] := by decide
  have h35 : Double.ofDecimal 35 1 = .finite false 7 (-1) := by decide
  refine ⟨hfuel, hrun, ?_, by rfl, ?_, ?_, by decide⟩
  · intro hfree
    rw [roundingFree, Bool.and_eq_true] at hfree
    obtain ⟨s, hs1, hs2⟩ := indexOrderSum_exact array size.toNat hfree.1
    obtain ⟨a, ha, hdiv⟩ := Double.divExact_spec hfree.2
    have hsa : s = a := Option.some.inj (hs1.symm.trans ha)
    subst hsa
    refine ⟨arithmeticMean array size.toNat, s / ((size.toNat : Nat) : ℚ), hrun, ?_, ?_⟩
    · rw [arithmeticMean, hdiv, Int.cast_natCast]
    · rw [exactMean, hs2]
      rfl
  · rw [h35]
    simp [Double.toRat, Double.signed]
    norm_num
  · rw [hnums]
    simp [exactMean, exactSum, Double.toRat, Double.signed]
    norm_num

/-- C8 at the array and the size of the program: no operation rounds, and the
result `3.5` stands for the arithmetic mean `7/2`. -/
theorem calculate_average_is_mean_witness :
    (1 : Int) ≤ 5 ∧ (5 : Int) ≤ INT_MAX ∧
    roundingFree
        [Double.ofDecimal 15 1, Double.ofDecimal 25 1, Double.ofDecimal 35 1,
         Double.ofDecimal 45 1, Double.ofDecimal 55 1] 5 = true ∧
    ∃ d mean, c_functions.calculate_average
        [Double.ofDecimal 15 1, Double.ofDecimal 25 1, Double.ofDecimal 35 1,
         Double.ofDecimal 45 1, Double.ofDecimal 55 1] 5 = .ok d ∧
      d.toRat = some mean ∧
      exactMean
        [Double.ofDecimal 15 1, Double.ofDecimal 25 1, Double.ofDecimal 35 1,
         Double.ofDecimal 45 1, Double.ofDecimal 55 1] 5 = some mean := by
  have hnums : [Double.ofDecimal 15 1, Double.ofDecimal 25 1, Double.ofDecimal 35 1,
      Double.ofDecimal 45 1, Double.ofDecimal 55 1]
      = [.finite false 3 (-1), .finite false 5 (-1), .finite false 7 (-1),
         .finite false 9 (-1), .finite false 11 (-1)] := by decide
  have hfree : roundingFree
      [Double.ofDecimal 15 1, Double.ofDecimal 25 1, Double.ofDecimal 35 1,
       Double.ofDecimal 45 1, Double.ofDecimal 55 1] 5 = true := by
    rw [hnums]
    have e0 : indexOrderSum [.finite false 3 (-1), .finite false 5 (-1), .finite false 7 (-1),
        .finite false 9 (-1), .finite false 11 (-1)] 0 = .finite false 0 0 := by decide
    have e1 : indexOrderSum [.finite false 3 (-1), .finite false 5 (-1), .finite false 7 (-1),
        .finite false 9 (-1), .finite false 11 (-1)] 1 = .finite false 3 (-1) := by decide
    have e2 : indexOrderSum [.finite false 3 (-1), .finite false 5 (-1), .finite false 7 (-1),
        .finite false 9 (-1), .finite false 11 (-1)] 2 = .finite false 1 2 := by decide
    have e3 : indexOrderSum [.finite false 3 (-1), .finite false 5 (-1), .finite false 7 (-1),
        .finite false 9 (-1), .finite false 11 (-1)] 3 = .finite false 15 (-1) := by decide
    have e4 : indexOrderSum [.finite false 3 (-1), .finite false 5 (-1), .finite false 7 (-1),
        .finite false 9 (-1), .finite false 11 (-1)] 4 = .finite false 3 2 := by decide
    have e5 : indexOrderSum [.finite false 3 (-1), .finite false 5 (-1), .finite false 7 (-1),
        .finite false 9 (-1), .finite false 11 (-1)] 5 = .finite false 35 (-1) := by decide
    have a1 : Double.add (.finite false 0 0) (.finite false 3 (-1)) = .finite false 3 (-1) := by
      decide
    have a2 : Double.add (.finite false 3 (-1)) (.finite false 5 (-1)) = .finite false 1 2 := by
      decide
    have a3 : Double.add (.finite false 1 2) (.finite false 7 (-1)) = .finite false 15 (-1) := by
      decide
    have a4 : Double.add (.finite false 15 (-1)) (.finite false 9 (-1)) = .finite false 3 2 := by
      decide
    have a5 : Double.add (.finite false 3 2) (.finite false 11 (-1)) = .finite false 35 (-1) := by
      decide
    have i5 : Double.ofInt 5 = .finite false 5 0 := by decide
    have d5 : Double.div (.finite false 35 (-1)) (.finite false 5 0) = .finite false 7 (-1) := by
      decide
    simp only [roundingFree, roundingFreeSum, e0, e1, e2, e3, e4, e5]
    simp [Double.addExact, Double.divExact, a1, a2, a3, a4, a5, i5, d5, Double.toRat,
      Double.signed]
    norm_num
  exact ⟨by decide, by decide, hfree,
    (calculate_average_is_mean
      [Double.ofDecimal 15 1, Double.ofDecimal 25 1, Double.ofDecimal 35 1,
       Double.ofDecimal 45 1, Double.ofDecimal 55 1] 5 (by decide) (by decide)
      (by decide)).2.2.1 hfree⟩

/-- The literal `1e308` is the `double` `156575653125701 * 2 ^ 976`. -/
theorem Double.ofDecimal_1e308 :
    Double.ofDecimal (10 ^ 308) 0 = .finite false 156575653125701 976 := by
  decide!

/-- The sum `0.0 + 1e308 + 1e308` overflows: the average of `{1e308, 1e308}`
is `inf`. -/
theorem c_functions.calculate_average_1e308 :
    c_functions.calculate_average
        [.finite false 156575653125701 976, .finite false 156575653125701 976] 2
      = .ok (.infinite false) := by
  have h : (c_functions.calculate_average
      [.finite false 156575653125701 976, .finite false 156575653125701 976] 2).toOption
      = some (.infinite false) := by decide!
  cases hr : c_functions.calculate_average
      [.finite false 156575653125701 976, .finite false 156575653125701 976] 2 with
  | error e => rw [hr] at h; exact absurd h (by simp [Except.toOption])
  | ok d =>
    rw [hr] at h
    rw [Option.some.inj h]

/-- C8, the counterexample: the value returned is not always the arithmetic
mean of the elements. For `{1e308, 1e308}` and `n = 2` the sum overflows and
`calculate_average` returns `inf`, while the mean is `1e308` itself. For
`{0.1, 0.2, 0.3}` and `n = 3` the additions round and `calculate_average`
returns `0x1.999999999999bp-3` (`0.20000000000000004`), which is neither the
mean of the three `double`s nor the `double` nearest to it,
`0x1.999999999999ap-3` (the literal `0.2`). -/
theorem calculate_average_differs_from_mean :
    (c_functions.calculate_average
        [Double.ofDecimal (10 ^ 308) 0, Double.ofDecimal (10 ^ 308) 0] 2
      = .ok (.infinite false) ∧
     (Double.infinite false).toRat = none ∧
     (Double.ofDecimal (10 ^ 308) 0).toRat.isSome = true ∧
     exactMean [Double.ofDecimal (10 ^ 308) 0, Double.ofDecimal (10 ^ 308) 0] 2
      = (Double.ofDecimal (10 ^ 308) 0).toRat) ∧
    (c_functions.calculate_average
        [Double.ofDecimal 1 1, Double.ofDecimal 2 1, Double.ofDecimal 3 1] 3
      = .ok (.finite false 7205759403792795 (-55)) ∧
     exactMean [Double.ofDecimal 1 1, Double.ofDecimal 2 1, Double.ofDecimal 3 1] 3
      = some (21617278211378381 / 108086391056891904) ∧
     (Double.finite false 7205759403792795 (-55)).toRat
      ≠ some (21617278211378381 / 108086391056891904) ∧
     Double.ofRatio 21617278211378381 108086391056891904
      = .finite false 3602879701896397 (-54) ∧
     Double.finite false 3602879701896397 (-54) = Double.ofDecimal 2 1) := by
  have hsmall : [Double.ofDecimal 1 1, Double.ofDecimal 2 1, Double.ofDecimal 3 1]
      = [.finite false 3602879701896397 (-55), .finite false 3602879701896397 (-54),
         .finite false 5404319552844595 (-54)] := by decide
  refine ⟨⟨?_, rfl, ?_, ?_⟩, ⟨by rfl, ?_, ?_, by decide, by decide⟩⟩
  · rw [Double.ofDecimal_1e308]
    exact c_functions.calculate_average_1e308
  · rw [Double.ofDecimal_1e308]; rfl
  · rw [Double.ofDecimal_1e308]
    simp [exactMean, exactSum, Double.toRat, Double.signed]
  · rw [hsmall]
    simp [exactMean, exactSum, Double.toRat, Double.signed]
    norm_num
  · simp [Double.toRat, Double.signed]
    norm_num

/-! ## brace_init_compiler.cpp: constructor selection -/

/-- C9: brace initialization prefers the initializer-list constructor.
`Example e1{1, 2}` selects `Example(std::initializer_list<int>)`, which prints
"Initializer list constructor: 2 elements" and stores `1` and `2.0`; it does not
select `Example(int, double)`. `Example e2(1, 2.5)` selects
`Example(int, double)`, which prints "Regular constructor: 1, 2.5". -/
theorem example_constructor_selection :
    selectConstructor "Example" brace_init_compiler.Example.ctors .braces [.int, .int]
      = some (.initializerList .int) ∧
    selectConstructor "Example" brace_init_compiler.Example.ctors .parens [.int, .double]
      = some (.regular [.int, .double]) ∧
    printsLinesAt brace_init_compiler.show_overload_resolution 2
      [ "Example e1\x7b1, 2\x7d:", "Initializer list constructor: 2 elements", "",
        "Example e2(1, 2.5):", "Regular constructor: 1, 2.5" ] ∧
    ¬ printsLine brace_init_compiler.show_overload_resolution "Regular constructor: 1, 2" ∧
    printsLine brace_init_compiler.main "Initializer list constructor: 2 elements" ∧
    printsLine brace_init_compiler.main "Regular constructor: 1, 2.5" := by
  decide

/-! ## initializer_list.cpp: the member initializer list -/

/-- The one line that `Point p(x_val, y); p.print();` prints. -/
theorem initializer_list.point_print_template (this : Obj) (mem : initializer_list.Memory)
    (x_val : Int) (y : String) :
    template (do
        let p ← initializer_list.Point.ctor this mem x_val y
        p.print mem)
      = some [[.text ("x=" ++ showInt x_val ++ ", y_ref=" ++ showInt (mem y)
          ++ ", y_value=" ++ "100")]] := by
  simp only [initializer_list.Point.print, cout_int]
  rfl

/-- C10: for every `x_val` and every `int` variable `y`, the member initializer
list of `Point p(x_val, y)` runs first and gives `y_value` the value of `y`; the
constructor body then assigns `100`. So `p.print()` prints `x=` the value of
`x_val`, `y_ref=` the value of `y` and `y_value=100`, whatever `y` holds; for
`(10, 42)` the program prints "x=10, y_ref=42, y_value=100". -/
theorem point_initializer_list (this : Obj) (mem : initializer_list.Memory)
    (x_val : Int) (y : String) :
    initializer_list.Point.initializers mem x_val y = ⟨x_val, y, mem y⟩ ∧
    initializer_list.Point.body (initializer_list.Point.initializers mem x_val y)
      = ⟨x_val, y, 100⟩ ∧
    output (fun _ => 0) (do
        let p ← initializer_list.Point.ctor this mem x_val y
        p.print mem)
      = some ["x=" ++ showInt x_val ++ ", y_ref=" ++ showInt (mem y) ++ ", y_value=100"] ∧
    printsLine initializer_list.main "x=10, y_ref=42, y_value=100" := by
  refine ⟨rfl, rfl, ?_, by decide⟩
  unfold output
  rw [initializer_list.point_print_template this mem x_val y]
  simp only [Option.map_some', List.map_cons, List.map_nil, renderLine, Chunk.render,
    String.join, List.foldl, Option.some.injEq, List.cons.injEq, and_true]
  rw [String.append_assoc _ ", y_value=" "100"]
  rfl

/-! ## brace_initialization.cpp: aggregates -/

/-- C11: the members of an aggregate are initialized in declaration order, and
the inner braces may be left out. For all `int`s `a`, `b`, `c`, `d` the
declarations `Line{a, b, c, d}` and `Line{{a, b}, {c, d}}` give the same `Line`,
with `start = (a, b)` and `end = (c, d)`; `Point p{10, 20}` has `x = 10` and
`y = 20`. The program prints the three objects accordingly. -/
theorem line_brace_elision (a b c d : Int) :
    brace_initialization.Line.aggregate [.value a, .value b, .value c, .value d]
      = some ⟨⟨a, b⟩, ⟨c, d⟩⟩ ∧
    brace_initialization.Line.aggregate
        [.braces [.value a, .value b], .braces [.value c, .value d]]
      = some ⟨⟨a, b⟩, ⟨c, d⟩⟩ ∧
    brace_initialization.Line.aggregate [.value a, .value b, .value c, .value d]
      = brace_initialization.Line.aggregate
        [.braces [.value a, .value b], .braces [.value c, .value d]] ∧
    brace_initialization.Point.aggregate [.value 10, .value 20] = some ⟨10, 20⟩ ∧
    printsLinesAt brace_initialization.demonstrate_aggregate 2
      [ "Point p\x7b10, 20\x7d: (10, 20)",
        "Line\x7b\x7b0,0\x7d, \x7b10,10\x7d\x7d: start(0,0) end(10,10)",
        "Line\x7b0,0,10,10\x7d: start(0,0) end(10,10)" ] := by
  refine ⟨by rfl, by rfl, by rfl, by rfl, by decide⟩

/-! ## concrete_types.cpp: copies -/

/-- A program that succeeds has a final state. -/
theorem exists_ok_of_succeeds (p : Run α) (h : succeeds p = true) :
    ∃ r, execute p = .ok r := by
  unfold succeeds at h
  cases hp : execute p with
  | error e => rw [hp] at h; exact absurd h (Bool.false_ne_true)
  | ok r => exact ⟨r, rfl⟩

/-- The loop of `calculate_average` never needs more steps than the iterations
that remain and one more, whatever the array holds. -/
theorem c_functions.calculate_average_loop_terminates (array : List Double) (size : Int)
    (hsize : size ≤ INT_MAX) :
    ∀ (n : Nat) (i : Int) (fuel : Nat) (sum : Double), 0 ≤ i → (size - i).toNat = n →
      n < fuel →
      c_functions.calculate_average_loop array size fuel i sum ≠ .error .outOfFuel := by
  unfold INT_MAX at hsize
  intro n
  induction n with
  | zero =>
    intro i fuel sum hi hn hf
    obtain ⟨f, rfl⟩ : ∃ f, fuel = f + 1 := ⟨fuel - 1, by omega⟩
    have hge : ¬ i < size := by omega
    rw [c_functions.calculate_average_loop]
    simp only [hge, if_false]
    exact fun h => by cases h
  | succ n ih =>
    intro i fuel sum hi hn hf
    obtain ⟨f, rfl⟩ : ∃ f, fuel = f + 1 := ⟨fuel - 1, by omega⟩
    have hlt : i < size := by omega
    have hwrap : wrapInt (i + 1) = i + 1 :=
      wrapInt_of_isInt _ (by unfold isInt INT_MIN INT_MAX; omega)
    rw [c_functions.calculate_average_loop]
    simp only [hlt, if_true, hi]
    cases hx : array.get? i.toNat with
    | none => exact fun h => by cases h
    | some x =>
      simp only [hwrap]
      exact ih (i + 1) f (Double.add sum x) (by omega) (by omega) (by omega)

/-- The loop of `calculate_average` is not finished after fewer steps than the
iterations that remain and one more, when the array is long enough. -/
theorem c_functions.calculate_average_loop_needs (array : List Double) (size : Int)
    (hsize : size ≤ INT_MAX) (hlen : size.toNat ≤ array.length) :
    ∀ (fuel : Nat) (i : Int) (sum : Double), 0 ≤ i → fuel ≤ (size - i).toNat →
      c_functions.calculate_average_loop array size fuel i sum = .error .outOfFuel := by
  unfold INT_MAX at hsize
  intro fuel
  induction fuel with
  | zero =>
    intro i sum _ _
    rfl
  | succ f ih =>
    intro i sum hi hf
    have hlt : i < size := by omega
    have hidx : i.toNat < array.length := by omega
    obtain ⟨x, hx⟩ : ∃ x, array.get? i.toNat = some x :=
      ⟨array.get ⟨_, hidx⟩, List.get?_eq_get hidx⟩
    have hwrap : wrapInt (i + 1) = i + 1 :=
      wrapInt_of_isInt _ (by unfold isInt INT_MIN INT_MAX; omega)
    rw [c_functions.calculate_average_loop]
    simp only [hlt, if_true, hi, hx, hwrap]
    exact ih (i + 1) (Double.add sum x) (by omega) (by omega)

/-- C13: every program runs to completion. Each of the eleven `main`s reaches
its `return`, whatever assembly unit is linked in. The one loop of the
repository, in `calculate_average`, ends for every `int` value of `size` and
every array: it never needs more than `max(size, 0)` iterations and the final
test of `i < size`. When the array holds `max(size, 0)` elements or more it makes
exactly `max(size, 0)` iterations: it is left with `i = max(size, 0)` after
`max(size, 0) + 1` tests and is not finished after `max(size, 0)` tests. -/
theorem programs_run_to_completion (asm : asm_interop_example.AsmUnit)
    (array : List Double) (size : Int) (hint : isInt size) :
    (∀ p ∈ programs asm, ∃ r, execute p.2 = .ok r) ∧
    c_functions.calculate_average_loop array size (size.toNat + 1) 0 Double.zero
      ≠ .error .outOfFuel ∧
    (size.toNat ≤ array.length →
      c_functions.calculate_average_loop array size (size.toNat + 1) 0 Double.zero
        = .ok (max size 0, indexOrderSum array size.toNat) ∧
      c_functions.calculate_average_loop array size size.toNat 0 Double.zero
        = .error .outOfFuel) := by
  have hsize : size ≤ INT_MAX := hint.2
  refine ⟨?_, ?_, ?_⟩
  · intro p hp
    apply exists_ok_of_succeeds
    simp only [programs, List.mem_cons, List.mem_singleton, List.not_mem_nil, or_false] at hp
    rcases hp with rfl | rfl | rfl | rfl | rfl | rfl | rfl | rfl | rfl | rfl | rfl
    · decide
    · rw [succeeds_eq_isSome]
      show (template (asm_interop_example.main asm)).isSome = true
      rw [asm_interop_example.template_eq asm]
      rfl
    all_goals decide
  · exact c_functions.calculate_average_loop_terminates array size hsize size.toNat 0
      (size.toNat + 1) Double.zero (by omega) (by omega) (by omega)
  · intro hlen
    refine ⟨?_, c_functions.calculate_average_loop_needs array size hsize hlen size.toNat 0
      Double.zero (by omega) (by omega)⟩
    by_cases hneg : size < 0
    · have htn : size.toNat = 0 := by omega
      have hmax : max size 0 = 0 := by omega
      have hnot : ¬ (0 : Int) < size := by omega
      rw [htn, hmax, c_functions.calculate_average_loop]
      simp only [hnot, if_false]
      rfl
    · have hmax : max size 0 = size := by omega
      have hloop := c_functions.calculate_average_loop_spec array size hsize hlen
        size.toNat 0 (size.toNat + 1) (by omega) (by omega) (by omega) (by omega)
      rw [hmax]
      exact hloop

/-- C13 at `size = 5` with the array of the program (five iterations: done
after six tests, not after five), and at `size = -3` with an empty array (no
iteration). -/
theorem programs_run_to_completion_witness :
    isInt 5 ∧ isInt (-3) ∧
    ((5 : Int).toNat ≤ [Double.ofDecimal 15 1, Double.ofDecimal 25 1, Double.ofDecimal 35 1,
         Double.ofDecimal 45 1, Double.ofDecimal 55 1].length) ∧
    (c_functions.calculate_average_loop
        [Double.ofDecimal 15 1, Double.ofDecimal 25 1, Double.ofDecimal 35 1,
         Double.ofDecimal 45 1, Double.ofDecimal 55 1] 5 ((5 : Int).toNat + 1) 0 Double.zero
      = .ok (max 5 0, indexOrderSum
        [Double.ofDecimal 15 1, Double.ofDecimal 25 1, Double.ofDecimal 35 1,
         Double.ofDecimal 45 1, Double.ofDecimal 55 1] (5 : Int).toNat) ∧
     c_functions.calculate_average_loop
        [Double.ofDecimal 15 1, Double.ofDecimal 25 1, Double.ofDecimal 35 1,
         Double.ofDecimal 45 1, Double.ofDecimal 55 1] 5 (5 : Int).toNat 0 Double.zero
      = .error .outOfFuel) ∧
    c_functions.calculate_average_loop [] (-3) ((-3 : Int).toNat + 1) 0 Double.zero
      ≠ .error .outOfFuel :=
  ⟨by decide, by decide, by decide,
   (programs_run_to_completion sampleAsm
      [Double.ofDecimal 15 1, Double.ofDecimal 25 1, Double.ofDecimal 35 1,
       Double.ofDecimal 45 1, Double.ofDecimal 55 1] 5 (by decide)).2.2 (by decide),
   (programs_run_to_completion sampleAsm [] (-3) (by decide)).2.1⟩

/-! ## Exit status -/

/-- The exit status of asm_interop_example.cpp, whatever `asm_multiply` and
`asm_swap` do. -/
theorem asm_interop_example.exitStatus_eq (asm : asm_interop_example.AsmUnit) :
    exitStatus (asm_interop_example.main asm) = some 0 := by
  simp only [asm_interop_example.main, cout_int, cout_long]
  rfl

/-- C14: every program exits with status 0. Each of the eleven `main`s is one
path of statements that ends in `return 0`, and each reaches it, whatever
assembly unit is linked in. -/
theorem programs_exit_with_zero (asm : asm_interop_example.AsmUnit) :
    ∀ p ∈ programs asm, exitStatus p.2 = some 0 := by
  intro p hp
  simp only [programs, List.mem_cons, List.mem_singleton, List.not_mem_nil, or_false] at hp
  rcases hp with rfl | rfl | rfl | rfl | rfl | rfl | rfl | rfl | rfl | rfl | rfl
  · decide
  · exact asm_interop_example.exitStatus_eq asm
  all_goals decide

/-- C14 at hello.cpp. -/
theorem programs_exit_with_zero_witness : exitStatus hello.main = some 0 :=
  programs_exit_with_zero sampleAsm ("hello.cpp", hello.main) (by simp [programs])

end LearningCpp
